import Mathlib

/-!
# bwm: a minimal reparenting window manager

A shallow embedding of `src/bwm.cpp` / `src/bwm.hpp`.

* The object state is the structure `BasicWindowManager`: the members
  `m_RootWindow` and `m_Clients`, the static flag `wm_detected`, and `calls`,
  the Xlib calls issued so far, oldest first.  `m_Display` is the connection
  every call goes through; it never changes and carries no state of the
  manager, so it is left out.
* Everything the X server answers is an input: the reply to
  `XGetWindowAttributes` and the handle returned by `XCreateSimpleWindow`
  (`FrameReply`), the failures delivered to the error handler during the
  handshake, the reply to `XQueryTree`, and the events returned by `XNextEvent`.
* Xlib's own declarations are not part of the repository.  Window handles and
  masks are natural numbers, the `int` fields of Xlib's structures are
  integers; the values are passed to the calls as the source passes them.
* Diagnostics written to `std::cout` / `std::cerr` are not modelled.
-/

namespace Bwm

/-! ## Xlib vocabulary -/

/-- An X resource identifier. A value-initialised `Window` is `0`. -/
abbrev Window := Nat

/-- The error code `BadAccess` of `X.h`. -/
def BadAccess : Nat := 10

/-- The map state `IsViewable` of `X.h`. -/
def IsViewable : Nat := 2

/-- The event mask `SubstructureNotifyMask` of `X.h`, `1L<<19`. -/
def SubstructureNotifyMask : Nat := 524288

/-- The event mask `SubstructureRedirectMask` of `X.h`, `1L<<20`. -/
def SubstructureRedirectMask : Nat := 1048576

/-- Event type codes of `X.h`. -/
def CreateNotify : Nat := 16

/-- Event type code of `X.h`. -/
def DestroyNotify : Nat := 17

/-- Event type code of `X.h`. -/
def UnmapNotify : Nat := 18

/-- Event type code of `X.h`. -/
def MapNotify : Nat := 19

/-- Event type code of `X.h`. -/
def MapRequest : Nat := 20

/-- Event type code of `X.h`. -/
def ReparentNotify : Nat := 21

/-- Event type code of `X.h`. -/
def ConfigureNotify : Nat := 22

/-- Event type code of `X.h`. -/
def ConfigureRequest : Nat := 23

/-- The part of `XErrorEvent` the program reads. -/
structure XErrorEvent where
  error_code : Nat
deriving DecidableEq, Repr

/-- The part of `XWindowAttributes` the program reads. -/
structure XWindowAttributes where
  x : Int
  y : Int
  width : Int
  height : Int
  map_state : Nat
  override_redirect : Bool
deriving DecidableEq, Repr

/-- Xlib's `XWindowChanges`. -/
structure XWindowChanges where
  x : Int
  y : Int
  width : Int
  height : Int
  border_width : Int
  sibling : Window
  stack_mode : Int
deriving DecidableEq, Repr

/-- The part of `XConfigureRequestEvent` the program reads. -/
structure XConfigureRequestEvent where
  window : Window
  x : Int
  y : Int
  width : Int
  height : Int
  border_width : Int
  above : Window
  detail : Int
  value_mask : Nat
deriving DecidableEq, Repr

/-- The part of `XMapRequestEvent` the program reads. -/
structure XMapRequestEvent where
  window : Window
deriving DecidableEq, Repr

/-- The part of `XUnmapEvent` the program reads: `event` is the window the
notification was reported on (the parent), `window` the one unmapped. -/
structure XUnmapEvent where
  event : Window
  window : Window
deriving DecidableEq, Repr

/-- The union `XEvent`: its type code and the three views the handlers read. -/
structure XEvent where
  type : Nat
  xconfigurerequest : XConfigureRequestEvent
  xmaprequest : XMapRequestEvent
  xunmap : XUnmapEvent
deriving DecidableEq, Repr

/-- The two error handlers the program installs. -/
inductive ErrorHandler where
  | OnWMDetected
  | OnXError
deriving DecidableEq, Repr

/-- One Xlib call made by the program, with its arguments.
`XCreateSimpleWindow` also records the handle the server returned. -/
inductive XCall where
  | XSetErrorHandler (handler : ErrorHandler)
  | XSelectInput (w : Window) (event_mask : Nat)
  | XSync (discard : Bool)
  | XGrabServer
  | XUngrabServer
  | XQueryTree (w : Window)
  | XFree
  | XNextEvent
  | XGetWindowAttributes (w : Window)
  | XCreateSimpleWindow (parent : Window) (x y width height : Int)
      (border_width border background : Nat) (result : Window)
  | XAddToSaveSet (w : Window)
  | XRemoveFromSaveSet (w : Window)
  | XReparentWindow (w parent : Window) (x y : Int)
  | XMapWindow (w : Window)
  | XUnmapWindow (w : Window)
  | XDestroyWindow (w : Window)
  | XConfigureWindow (w : Window) (value_mask : Nat) (changes : XWindowChanges)
deriving DecidableEq, Repr

/-- What the server answers during one call of `Frame`: the result of
`XGetWindowAttributes` (`none` when it returns 0) and the handle that
`XCreateSimpleWindow` returns if it is called. -/
structure FrameReply where
  attrs : Option XWindowAttributes
  frame : Window
deriving DecidableEq, Repr

/-! ## The client registry, `std::unordered_map<Window, Window>` -/

/-- The entries of the map, as (client, frame) pairs. -/
abbrev ClientMap := List (Window × Window)

namespace ClientMap

/-- The value stored under key `k`, if there is one. -/
def find : ClientMap → Window → Option Window
  | [], _ => none
  | (k', v') :: m, k => if k' = k then some v' else find m k

/-- The member `count`: the number of entries with key `k`, 0 or 1. -/
def count (m : ClientMap) (k : Window) : Nat :=
  if (find m k).isSome then 1 else 0

/-- The assignment `m[k] = v`: overwrite the entry of `k`, or add one. -/
def assign : ClientMap → Window → Window → ClientMap
  | [], k, v => [(k, v)]
  | (k', v') :: m, k, v => if k' = k then (k', v) :: m else (k', v') :: assign m k v

/-- The read `m[k]`: the value under `k`; when `k` is absent a
value-initialised entry `(k, 0)` is added first. Returns the map too. -/
def index (m : ClientMap) (k : Window) : ClientMap × Window :=
  match find m k with
  | some v => (m, v)
  | none => (assign m k 0, 0)

/-- The member `erase(k)`. -/
def erase (m : ClientMap) (k : Window) : ClientMap :=
  m.filter (fun p => p.1 != k)

/-- The client keys of the map. -/
def keys (m : ClientMap) : List Window := m.map Prod.fst

/-- The frame values of the map. -/
def frames (m : ClientMap) : List Window := m.map Prod.snd

end ClientMap

/-! ## The manager -/

/-- State of the manager: the members of `class BasicWindowManager`, its
static flag, and the Xlib calls issued so far (oldest first). -/
structure BasicWindowManager where
  m_RootWindow : Window
  m_Clients : ClientMap
  wm_detected : Bool
  calls : List XCall
deriving DecidableEq, Repr

namespace BasicWindowManager

/-- The constructor: `m_RootWindow(DefaultRootWindow(display)), m_Clients{}`;
the static `wm_detected` is initialised to `false`. -/
def create (root : Window) : BasicWindowManager :=
  { m_RootWindow := root, m_Clients := [], wm_detected := false, calls := [] }

/-- Issue one Xlib call. -/
def call (s : BasicWindowManager) (c : XCall) : BasicWindowManager :=
  { s with calls := s.calls ++ [c] }

/-- The handler `OnXError`: returns 0, changes nothing. -/
def OnXError (s : BasicWindowManager) (_e : XErrorEvent) : BasicWindowManager := s

/-- The handler `OnWMDetected`:
`wm_detected = static_cast<int>(e->error_code) == BadAccess;`. -/
def OnWMDetected (s : BasicWindowManager) (e : XErrorEvent) : BasicWindowManager :=
  { s with wm_detected := e.error_code == BadAccess }

/-- The handler `OnCreateNotify`: empty body. -/
def OnCreateNotify (s : BasicWindowManager) : BasicWindowManager := s

/-- The handler `OnConfigureNotify`: empty body. -/
def OnConfigureNotify (s : BasicWindowManager) : BasicWindowManager := s

/-- The handler `OnMapNotify`: empty body. -/
def OnMapNotify (s : BasicWindowManager) : BasicWindowManager := s

/-- The handler `OnReparentNotify`: empty body. -/
def OnReparentNotify (s : BasicWindowManager) : BasicWindowManager := s

/-- The handler `OnDestroyNotify`: empty body. -/
def OnDestroyNotify (s : BasicWindowManager) : BasicWindowManager := s

/-- The handler `OnConfigureRequest`. -/
def OnConfigureRequest (s : BasicWindowManager) (e : XConfigureRequestEvent) :
    BasicWindowManager :=
  let changes : XWindowChanges :=
    { x := e.x, y := e.y, width := e.width, height := e.height,
      border_width := e.border_width, sibling := e.above, stack_mode := e.detail }
  let s :=
    if s.m_Clients.count e.window != 0 then
      let r := s.m_Clients.index e.window
      let s := { s with m_Clients := r.1 }
      let frame := r.2
      s.call (.XConfigureWindow frame e.value_mask changes)
    else s
  s.call (.XConfigureWindow e.window e.value_mask changes)

/-- The method `Frame(w, createdBeforeWM)`. -/
def Frame (s : BasicWindowManager) (w : Window) (createdBeforeWM : Bool)
    (reply : FrameReply) : BasicWindowManager :=
  let BORDER_WIDTH : Nat := 5
  let BORDER_COLOR : Nat := 0x9c9c9c
  let BG_COLOR : Nat := 0x636363
  let s := s.call (.XGetWindowAttributes w)
  match reply.attrs with
  | none => s
  | some x_window_attrs =>
    if createdBeforeWM &&
        (x_window_attrs.override_redirect || x_window_attrs.map_state != IsViewable) then
      s
    else
      let frame := reply.frame
      let s := s.call (.XCreateSimpleWindow s.m_RootWindow x_window_attrs.x x_window_attrs.y
        x_window_attrs.width x_window_attrs.height BORDER_WIDTH BORDER_COLOR BG_COLOR frame)
      let s := s.call (.XSelectInput frame (SubstructureRedirectMask ||| SubstructureNotifyMask))
      let s := s.call (.XAddToSaveSet w)
      let s := s.call (.XReparentWindow w frame 0 0)
      let s := s.call (.XMapWindow frame)
      { s with m_Clients := s.m_Clients.assign w frame }

/-- The method `Unframe(w)`. -/
def Unframe (s : BasicWindowManager) (w : Window) : BasicWindowManager :=
  let r := s.m_Clients.index w
  let s := { s with m_Clients := r.1 }
  let frame := r.2
  let s := s.call (.XUnmapWindow frame)
  let s := s.call (.XReparentWindow w s.m_RootWindow 0 0)
  let s := s.call (.XRemoveFromSaveSet w)
  let s := s.call (.XDestroyWindow frame)
  { s with m_Clients := s.m_Clients.erase w }

/-- The handler `OnMapRequest`. -/
def OnMapRequest (s : BasicWindowManager) (e : XMapRequestEvent) (reply : FrameReply) :
    BasicWindowManager :=
  let s := Frame s e.window false reply
  s.call (.XMapWindow e.window)

/-- The handler `OnUnmapNotify`. -/
def OnUnmapNotify (s : BasicWindowManager) (e : XUnmapEvent) : BasicWindowManager :=
  if s.m_Clients.count e.window == 0 then s
  else if e.event == s.m_RootWindow then s
  else Unframe s e.window

/-- The `switch (e.type)` of the event loop. `reply` is what the server
answers if the handler calls `Frame`. -/
def dispatch (s : BasicWindowManager) (e : XEvent) (reply : FrameReply) :
    BasicWindowManager :=
  if e.type = CreateNotify then OnCreateNotify s
  else if e.type = ConfigureRequest then OnConfigureRequest s e.xconfigurerequest
  else if e.type = ConfigureNotify then OnConfigureNotify s
  else if e.type = MapRequest then OnMapRequest s e.xmaprequest reply
  else if e.type = MapNotify then OnMapNotify s
  else if e.type = UnmapNotify then OnUnmapNotify s e.xunmap
  else if e.type = ReparentNotify then OnReparentNotify s
  else if e.type = DestroyNotify then OnDestroyNotify s
  else s

/-- The loop `for (i = 0; i < num_top_level_windows; ++i) Frame(top_level_windows[i], true)`,
from index `i` on; `replies i` is the server's answer during iteration `i`. -/
def frameTopLevel (s : BasicWindowManager) (replies : Nat → FrameReply) :
    Nat → List Window → BasicWindowManager
  | _, [] => s
  | i, w :: ws => frameTopLevel (Frame s w true (replies i)) replies (i + 1) ws

/-- The loop `for (;;)` run on the events the server delivers: each iteration
calls `XNextEvent` and dispatches; with no event left the call blocks. -/
def eventLoop (s : BasicWindowManager) : List (XEvent × FrameReply) → BasicWindowManager
  | [] => s.call .XNextEvent
  | (e, reply) :: rest => eventLoop (dispatch (s.call .XNextEvent) e reply) rest

/-- How a run of `Run` ends: it returned, or it is blocked in `XNextEvent`. -/
inductive RunStatus where
  | returned
  | awaitingEvent
deriving DecidableEq, Repr

/-- Everything the server delivers during `Run`. -/
structure RunInput where
  /-- failures delivered to the handler between `XSelectInput` and the end of `XSync` -/
  handshakeErrors : List XErrorEvent
  /-- reply of `XQueryTree`: `none` when it returns 0, else `returned_root` and the children -/
  queryTree : Option (Window × List Window)
  /-- answers during the `i`-th startup call of `Frame` -/
  startupReplies : Nat → FrameReply
  /-- events returned by `XNextEvent`, each with the answers used while it is handled -/
  events : List (XEvent × FrameReply)

/-- The handshake that opens `Run`: clear the flag, install `OnWMDetected`,
select the substructure events on the root, synchronise; Xlib calls the handler
once for each failure the server reports meanwhile, in order. -/
def handshake (s : BasicWindowManager) (errors : List XErrorEvent) : BasicWindowManager :=
  let s := { s with wm_detected := false }
  let s := s.call (.XSetErrorHandler .OnWMDetected)
  let s := s.call (.XSelectInput s.m_RootWindow (SubstructureRedirectMask ||| SubstructureNotifyMask))
  let s := s.call (.XSync false)
  errors.foldl OnWMDetected s

/-- The method `Run`. -/
def Run (s : BasicWindowManager) (inp : RunInput) : BasicWindowManager × RunStatus :=
  let s := handshake s inp.handshakeErrors
  if s.wm_detected then (s, .returned)
  else
    let s := s.call (.XSetErrorHandler .OnXError)
    let s := s.call .XGrabServer
    let s := s.call (.XQueryTree s.m_RootWindow)
    match inp.queryTree with
    | none => (s, .returned)
    | some (returned_root, top_level_windows) =>
      if returned_root != s.m_RootWindow then (s, .returned)
      else
        let s := frameTopLevel s inp.startupReplies 0 top_level_windows
        let s := s.call .XFree
        let s := s.call .XUngrabServer
        (eventLoop s inp.events, .awaitingEvent)

/-! ## Sequences of operations -/

/-- One state-changing operation of the manager after construction: a call of
`Frame(w, true)` from the startup pass, or the dispatch of one event. -/
inductive Action where
  | startupFrame (w : Window) (reply : FrameReply)
  | event (e : XEvent) (reply : FrameReply)
deriving DecidableEq, Repr

/-- Perform one action. -/
def step (s : BasicWindowManager) : Action → BasicWindowManager
  | .startupFrame w reply => Frame s w true reply
  | .event e reply => dispatch s e reply

/-- Perform a sequence of actions, first to last. -/
def exec (s : BasicWindowManager) : List Action → BasicWindowManager
  | [] => s
  | a :: as => exec (step s a) as

/-- The handles returned by the `XCreateSimpleWindow` calls in a list of calls. -/
def createdFrames : List XCall → List Window
  | [] => []
  | .XCreateSimpleWindow _ _ _ _ _ _ _ _ result :: cs => result :: createdFrames cs
  | _ :: cs => createdFrames cs

/-- The calls issued between state `s` and a later state `t`. -/
def callsSince (s t : BasicWindowManager) : List XCall := t.calls.drop s.calls.length

/-- Every window created while performing `a` in state `s` has a handle
that differs from every frame recorded in the registry of `s`. -/
def FreshStep (s : BasicWindowManager) (a : Action) : Prop :=
  ∀ f ∈ createdFrames (callsSince s (step s a)), f ∉ s.m_Clients.frames

/-- The freshness assumption `FreshStep` holds at every action of a run. -/
def FreshRun : BasicWindowManager → List Action → Prop
  | _, [] => True
  | s, a :: as => FreshStep s a ∧ FreshRun (step s a) as

instance decidableFreshStep (s : BasicWindowManager) (a : Action) :
    Decidable (FreshStep s a) :=
  inferInstanceAs
    (Decidable (∀ f ∈ createdFrames (callsSince s (step s a)), f ∉ s.m_Clients.frames))

instance decidableFreshRun :
    (s : BasicWindowManager) → (as : List Action) → Decidable (FreshRun s as)
  | _, [] => isTrue trivial
  | s, a :: as =>
    have := decidableFreshRun (step s a) as
    inferInstanceAs (Decidable (FreshStep s a ∧ FreshRun (step s a) as))

/-- The windows named by the `XDestroyWindow` calls in a list of calls. -/
def destroyedWindows : List XCall → List Window
  | [] => []
  | .XDestroyWindow w :: cs => w :: destroyedWindows cs
  | _ :: cs => destroyedWindows cs

/-- The `XReparentWindow` call for window `w`, if this call is one. -/
def reparentOf (w : Window) : XCall → Option XCall
  | .XReparentWindow w' parent x y =>
      if w' = w then some (.XReparentWindow w' parent x y) else none
  | _ => none

/-- The last `XReparentWindow` call for window `w` in a list of calls. -/
def lastReparentOf (w : Window) : List XCall → Option XCall
  | [] => none
  | c :: cs =>
    match lastReparentOf w cs with
    | some r => some r
    | none => reparentOf w c

/-- The actions of the startup pass from index `i` on: `Frame(w, true)` for
each window of the list in order, iteration `i` answered by `replies i`. -/
def startupActions (replies : Nat → FrameReply) : Nat → List Window → List Action
  | _, [] => []
  | i, w :: ws => .startupFrame w (replies i) :: startupActions replies (i + 1) ws

/-- A list of calls with none of the three that only the body of `Run` makes:
`XGrabServer`, `XUngrabServer`, `XNextEvent`. -/
def handlerCalls (l : List XCall) : Prop :=
  XCall.XGrabServer ∉ l ∧ XCall.XUngrabServer ∉ l ∧ XCall.XNextEvent ∉ l

/-- The windows created by `XCreateSimpleWindow` and not yet destroyed by
`XDestroyWindow` after the calls of the list, `live` being those before it. -/
def liveFrames (live : List Window) : List XCall → List Window
  | [] => live
  | .XCreateSimpleWindow _ _ _ _ _ _ _ _ result :: cs => liveFrames (live ++ [result]) cs
  | .XDestroyWindow w :: cs => liveFrames (live.filter (fun f => f != w)) cs
  | _ :: cs => liveFrames live cs

/-- Every window created while performing `a` in state `s` has a handle that
differs from every frame recorded in the registry of `s` and from every window
created so far and not destroyed. -/
def FreshLiveStep (s : BasicWindowManager) (a : Action) : Prop :=
  ∀ f ∈ createdFrames (callsSince s (step s a)),
    f ∉ s.m_Clients.frames ∧ f ∉ liveFrames [] s.calls

/-- The freshness assumption `FreshLiveStep` holds at every action of a run. -/
def FreshLiveRun : BasicWindowManager → List Action → Prop
  | _, [] => True
  | s, a :: as => FreshLiveStep s a ∧ FreshLiveRun (step s a) as

instance decidableFreshLiveStep (s : BasicWindowManager) (a : Action) :
    Decidable (FreshLiveStep s a) :=
  inferInstanceAs
    (Decidable (∀ f ∈ createdFrames (callsSince s (step s a)),
      f ∉ s.m_Clients.frames ∧ f ∉ liveFrames [] s.calls))

instance decidableFreshLiveRun :
    (s : BasicWindowManager) → (as : List Action) → Decidable (FreshLiveRun s as)
  | _, [] => isTrue trivial
  | s, a :: as =>
    have := decidableFreshLiveRun (step s a) as
    inferInstanceAs (Decidable (FreshLiveStep s a ∧ FreshLiveRun (step s a) as))

/-! ### Sample values -/

/-- Attributes of a viewable window that does not set `override_redirect`. -/
def sampleAttrs : XWindowAttributes :=
  { x := 10, y := 20, width := 300, height := 200,
    map_state := IsViewable, override_redirect := false }

/-- Attributes of a viewable window that sets `override_redirect`. -/
def sampleOverrideAttrs : XWindowAttributes :=
  { x := 0, y := 0, width := 64, height := 16,
    map_state := IsViewable, override_redirect := true }

/-- A manager with root window 1 that manages client 5 in frame 6. -/
def sampleState : BasicWindowManager :=
  { m_RootWindow := 1, m_Clients := [(5, 6)], wm_detected := false, calls := [] }

/-- An event of the given type code about window `w`, reported on window `parent`. -/
def sampleEvent (type w parent : Nat) : XEvent :=
  { type := type,
    xconfigurerequest :=
      { window := w, x := 0, y := 0, width := 640, height := 480, border_width := 0,
        above := 0, detail := 0, value_mask := 12 },
    xmaprequest := { window := w },
    xunmap := { event := parent, window := w } }

/-- A run: window 7 is framed at startup in frame 100, window 8 is mapped into
frame 101, window 7 is unmapped, and is mapped again into a frame that reuses
the handle 100. -/
def sampleRun : List Action :=
  [ .startupFrame 7 { attrs := some sampleAttrs, frame := 100 },
    .event (sampleEvent MapRequest 8 1) { attrs := some sampleAttrs, frame := 101 },
    .event (sampleEvent UnmapNotify 7 100) { attrs := none, frame := 0 },
    .event (sampleEvent ConfigureRequest 8 1) { attrs := none, frame := 0 },
    .event (sampleEvent MapRequest 7 1) { attrs := some sampleAttrs, frame := 100 } ]

/-- Startup in which the handler receives `BadAccess` and then `BadWindow` (3)
during the handshake, and the root (1) has one viewable top-level window 7. -/
def sampleRunInput : RunInput :=
  { handshakeErrors := [{ error_code := BadAccess }, { error_code := 3 }],
    queryTree := some (1, [7]),
    startupReplies := fun _ => { attrs := some sampleAttrs, frame := 9 },
    events := [] }

/-- Two Map-Request events for the same window 7, answered with the new
handles 100 and 101. -/
def sampleRemap : List Action :=
  [ .event (sampleEvent MapRequest 7 1) { attrs := some sampleAttrs, frame := 100 },
    .event (sampleEvent MapRequest 7 1) { attrs := some sampleAttrs, frame := 101 } ]

/-- Startup with a clean handshake in which `XQueryTree` fails. -/
def sampleQueryFailure : RunInput :=
  { handshakeErrors := [],
    queryTree := none,
    startupReplies := fun _ => { attrs := some sampleAttrs, frame := 9 },
    events := [] }

/-- Startup with a clean handshake in which `XQueryTree` reports the root 2
and one child 7, the manager's root being 1. -/
def sampleRootMismatch : RunInput :=
  { handshakeErrors := [],
    queryTree := some (2, [7]),
    startupReplies := fun _ => { attrs := some sampleAttrs, frame := 9 },
    events := [] }

/-- Startup with a clean handshake, the top-level windows 7 (viewable) and 8
(override-redirect), and one Map-Request for window 5 afterwards. -/
def sampleStartup : RunInput :=
  { handshakeErrors := [{ error_code := 3 }],
    queryTree := some (1, [7, 8]),
    startupReplies := fun i =>
      if i = 0 then { attrs := some sampleAttrs, frame := 100 }
      else { attrs := some sampleOverrideAttrs, frame := 101 },
    events := [(sampleEvent MapRequest 5 1, { attrs := some sampleAttrs, frame := 102 })] }

end BasicWindowManager

end Bwm

/-! ## Lemmas on the registry -/

namespace Bwm

namespace ClientMap

theorem find_assign (m : ClientMap) (k v k' : Window) :
    find (assign m k v) k' = if k' = k then some v else find m k' := by
  induction m with
  | nil =>
    by_cases h : k' = k
    · simp [assign, find, h]
    · have h' : ¬ k = k' := fun e => h e.symm
      simp [assign, find, h, h']
  | cons p m ih =>
    obtain ⟨a, b⟩ := p
    by_cases hak : a = k
    · subst hak
      by_cases h : k' = a
      · simp [assign, find, h]
      · have h' : ¬ a = k' := fun e => h e.symm
        simp [assign, find, h, h']
    · by_cases h : k' = k
      · subst h
        simp [assign, find, hak, ih]
      · by_cases hak' : a = k'
        · simp [assign, find, hak, hak', h]
        · simp [assign, find, hak, hak', h, ih]

theorem find_erase (m : ClientMap) (k k' : Window) :
    find (erase m k) k' = if k' = k then none else find m k' := by
  induction m with
  | nil => simp [erase, find]
  | cons p m ih =>
    obtain ⟨a, b⟩ := p
    have ih' : find (List.filter (fun p => p.1 != k) m) k' =
        if k' = k then none else find m k' := ih
    by_cases hak : a = k
    · subst hak
      by_cases h : k' = a
      · subst h
        simpa [erase, find] using ih'
      · have h' : ¬ a = k' := fun e => h e.symm
        simp [erase, find, h, h', ih']
    · by_cases h : k' = k
      · subst h
        simp [erase, find, hak, ih']
      · by_cases hak' : a = k'
        · simp [erase, find, hak, hak', h]
        · simp [erase, find, hak, hak', h, ih']

theorem find_eq_none_iff (m : ClientMap) (k : Window) :
    find m k = none ↔ k ∉ keys m := by
  induction m with
  | nil => simp [find, keys]
  | cons p m ih =>
    obtain ⟨a, b⟩ := p
    by_cases hak : a = k
    · simp [find, keys, hak]
    · have h' : ¬ k = a := fun e => hak e.symm
      have ih' : find m k = none ↔ k ∉ List.map Prod.fst m := ih
      simp [find, keys, hak, h', ih']

theorem mem_of_find (m : ClientMap) (k v : Window) (h : find m k = some v) :
    (k, v) ∈ m := by
  induction m with
  | nil => simp [find] at h
  | cons p m ih =>
    obtain ⟨a, b⟩ := p
    by_cases hak : a = k
    · simp [find, hak] at h
      simp [hak, h]
    · simp [find, hak] at h
      exact List.mem_cons_of_mem _ (ih h)

theorem erase_eq_self (m : ClientMap) (k : Window) (h : find m k = none) :
    erase m k = m := by
  induction m with
  | nil => rfl
  | cons p m ih =>
    obtain ⟨a, b⟩ := p
    by_cases hak : a = k
    · simp [find, hak] at h
    · simp [find, hak] at h
      have ih' : List.filter (fun p => p.1 != k) m = m := ih h
      simp [erase, hak, ih']

theorem erase_assign (m : ClientMap) (k v : Window) :
    erase (assign m k v) k = erase m k := by
  induction m with
  | nil => simp [assign, erase]
  | cons p m ih =>
    obtain ⟨a, b⟩ := p
    have ih' : List.filter (fun p => p.1 != k) (assign m k v) =
        List.filter (fun p => p.1 != k) m := ih
    by_cases hak : a = k
    · simp [assign, erase, hak]
    · simp [assign, erase, hak, ih']

theorem index_of_find (m : ClientMap) (k v : Window) (h : find m k = some v) :
    index m k = (m, v) := by
  simp [index, h]

theorem erase_index (m : ClientMap) (k : Window) :
    erase (index m k).1 k = erase m k := by
  unfold index
  cases h : find m k with
  | none => simp [erase_assign]
  | some v => simp

theorem mem_keys_assign (m : ClientMap) (k v x : Window)
    (h : x ∈ keys (assign m k v)) : x = k ∨ x ∈ keys m := by
  induction m with
  | nil => simpa [assign, keys] using h
  | cons p m ih =>
    obtain ⟨a, b⟩ := p
    by_cases hak : a = k
    · right
      simpa [assign, keys, hak] using h
    · simp only [assign, hak, if_false, keys, List.map_cons, List.mem_cons] at h
      rcases h with h | h
      · right
        simp [keys, h]
      · rcases ih h with h1 | h1
        · exact Or.inl h1
        · right
          exact List.mem_cons_of_mem _ h1

theorem mem_frames_assign (m : ClientMap) (k v x : Window)
    (h : x ∈ frames (assign m k v)) : x = v ∨ x ∈ frames m := by
  induction m with
  | nil => simpa [assign, frames] using h
  | cons p m ih =>
    obtain ⟨a, b⟩ := p
    by_cases hak : a = k
    · simp only [assign, hak, if_true, frames, List.map_cons, List.mem_cons] at h
      rcases h with h | h
      · exact Or.inl h
      · right
        exact List.mem_cons_of_mem _ h
    · simp only [assign, hak, if_false, frames, List.map_cons, List.mem_cons] at h
      rcases h with h | h
      · right
        simp [frames, h]
      · rcases ih h with h1 | h1
        · exact Or.inl h1
        · right
          exact List.mem_cons_of_mem _ h1

theorem nodup_keys_assign (m : ClientMap) (k v : Window) (h : (keys m).Nodup) :
    (keys (assign m k v)).Nodup := by
  induction m with
  | nil => simp [assign, keys]
  | cons p m ih =>
    obtain ⟨a, b⟩ := p
    have h' : a ∉ keys m ∧ (keys m).Nodup := by
      simpa [keys] using h
    by_cases hak : a = k
    · simpa [assign, keys, hak] using h
    · have hn : a ∉ keys (assign m k v) := by
        intro hmem
        rcases mem_keys_assign m k v a hmem with h1 | h1
        · exact hak h1
        · exact h'.1 h1
      have : (a :: keys (assign m k v)).Nodup := List.nodup_cons.2 ⟨hn, ih h'.2⟩
      simpa [assign, keys, hak] using this

theorem nodup_frames_assign (m : ClientMap) (k v : Window) (h : (frames m).Nodup)
    (hv : v ∉ frames m) : (frames (assign m k v)).Nodup := by
  induction m with
  | nil => simp [assign, frames]
  | cons p m ih =>
    obtain ⟨a, b⟩ := p
    have h' : b ∉ frames m ∧ (frames m).Nodup := by
      simpa [frames] using h
    have hv' : v ≠ b ∧ v ∉ frames m := by
      simpa [frames] using hv
    by_cases hak : a = k
    · have : (v :: frames m).Nodup := List.nodup_cons.2 ⟨hv'.2, h'.2⟩
      simpa [assign, frames, hak] using this
    · have hn : b ∉ frames (assign m k v) := by
        intro hmem
        rcases mem_frames_assign m k v b hmem with h1 | h1
        · exact hv'.1 h1.symm
        · exact h'.1 h1
      have : (b :: frames (assign m k v)).Nodup :=
        List.nodup_cons.2 ⟨hn, ih h'.2 hv'.2⟩
      simpa [assign, frames, hak] using this

theorem nodup_keys_erase (m : ClientMap) (k : Window) (h : (keys m).Nodup) :
    (keys (erase m k)).Nodup :=
  List.Nodup.sublist (List.Sublist.map Prod.fst (List.filter_sublist m)) h

theorem nodup_frames_erase (m : ClientMap) (k : Window) (h : (frames m).Nodup) :
    (frames (erase m k)).Nodup :=
  List.Nodup.sublist (List.Sublist.map Prod.snd (List.filter_sublist m)) h

theorem frame_unique_of_nodup_keys (m : ClientMap) (h : (keys m).Nodup)
    (c f1 f2 : Window) (h1 : (c, f1) ∈ m) (h2 : (c, f2) ∈ m) : f1 = f2 := by
  induction m with
  | nil => simp at h1
  | cons p m ih =>
    obtain ⟨a, b⟩ := p
    have h' : a ∉ keys m ∧ (keys m).Nodup := by
      simpa [keys] using h
    have hkey : ∀ f, (c, f) ∈ m → c ∈ keys m := fun f hf =>
      List.mem_map.2 ⟨(c, f), hf, rfl⟩
    rcases List.mem_cons.1 h1 with e1 | e1 <;> rcases List.mem_cons.1 h2 with e2 | e2
    · rw [Prod.mk.injEq] at e1 e2
      rw [e1.2, e2.2]
    · rw [Prod.mk.injEq] at e1
      exact absurd (e1.1 ▸ hkey f2 e2) h'.1
    · rw [Prod.mk.injEq] at e2
      exact absurd (e2.1 ▸ hkey f1 e1) h'.1
    · exact ih h'.2 e1 e2

theorem client_unique_of_nodup_frames (m : ClientMap) (h : (frames m).Nodup)
    (c1 c2 f : Window) (h1 : (c1, f) ∈ m) (h2 : (c2, f) ∈ m) : c1 = c2 := by
  induction m with
  | nil => simp at h1
  | cons p m ih =>
    obtain ⟨a, b⟩ := p
    have h' : b ∉ frames m ∧ (frames m).Nodup := by
      simpa [frames] using h
    have hval : ∀ c, (c, f) ∈ m → f ∈ frames m := fun c hc =>
      List.mem_map.2 ⟨(c, f), hc, rfl⟩
    rcases List.mem_cons.1 h1 with e1 | e1 <;> rcases List.mem_cons.1 h2 with e2 | e2
    · rw [Prod.mk.injEq] at e1 e2
      rw [e1.1, e2.1]
    · rw [Prod.mk.injEq] at e1
      exact absurd (e1.2 ▸ hval c2 e2) h'.1
    · rw [Prod.mk.injEq] at e2
      exact absurd (e2.2 ▸ hval c1 e1) h'.1
    · exact ih h'.2 e1 e2

theorem count_eq_zero_iff (m : ClientMap) (k : Window) :
    count m k = 0 ↔ find m k = none := by
  unfold count
  cases h : find m k <;> simp

end ClientMap

end Bwm

/-! ## The framing engine and the handlers -/

namespace Bwm

namespace BasicWindowManager

open ClientMap

theorem Frame_of_attrs (s : BasicWindowManager) (w : Window) (b : Bool) (reply : FrameReply)
    (a : XWindowAttributes) (ha : reply.attrs = some a)
    (hpass : b = false ∨ (a.map_state = IsViewable ∧ a.override_redirect = false)) :
    Frame s w b reply =
      { s with
        m_Clients := assign s.m_Clients w reply.frame
        calls := s.calls ++
          [.XGetWindowAttributes w,
           .XCreateSimpleWindow s.m_RootWindow a.x a.y a.width a.height 5 0x9c9c9c 0x636363
             reply.frame,
           .XSelectInput reply.frame (SubstructureRedirectMask ||| SubstructureNotifyMask),
           .XAddToSaveSet w,
           .XReparentWindow w reply.frame 0 0,
           .XMapWindow reply.frame] } := by
  have hc : (b && (a.override_redirect || a.map_state != IsViewable)) = false := by
    rcases hpass with h | ⟨h1, h2⟩
    · simp [h]
    · simp [h1, h2]
  simp [Frame, ha, hc, call]

theorem Frame_of_no_attrs (s : BasicWindowManager) (w : Window) (b : Bool)
    (reply : FrameReply) (ha : reply.attrs = none) :
    Frame s w b reply = s.call (.XGetWindowAttributes w) := by
  simp [Frame, ha]

theorem Frame_of_filtered (s : BasicWindowManager) (w : Window) (reply : FrameReply)
    (a : XWindowAttributes) (ha : reply.attrs = some a)
    (hf : a.override_redirect = true ∨ a.map_state ≠ IsViewable) :
    Frame s w true reply = s.call (.XGetWindowAttributes w) := by
  have hc : (a.override_redirect || a.map_state != IsViewable) = true := by
    rcases hf with h | h
    · simp [h]
    · simp [h]
  simp [Frame, ha, hc]

theorem Unframe_eq (s : BasicWindowManager) (w : Window) :
    Unframe s w =
      { s with
        m_Clients := erase s.m_Clients w
        calls := s.calls ++
          [.XUnmapWindow (index s.m_Clients w).2,
           .XReparentWindow w s.m_RootWindow 0 0,
           .XRemoveFromSaveSet w,
           .XDestroyWindow (index s.m_Clients w).2] } := by
  simp [Unframe, call, erase_index]

theorem OnUnmapNotify_of_client (s : BasicWindowManager) (e : XUnmapEvent) (F : Window)
    (hX : find s.m_Clients e.window = some F) (hroot : e.event ≠ s.m_RootWindow) :
    OnUnmapNotify s e = Unframe s e.window := by
  have hcount : count s.m_Clients e.window = 1 := by simp [count, hX]
  simp [OnUnmapNotify, hcount, hroot]

/-- C3. Unmap filtering: when the unmapped window is not a key of the registry,
or the window the notification is reported on is the root window,
`OnUnmapNotify` returns without calling `Unframe`: the state is the one before,
so the registry is unchanged and no Xlib call at all (no unmap, reparent,
save-set or destroy) is issued. -/
theorem OnUnmapNotify_filtered (s : BasicWindowManager) (e : XUnmapEvent)
    (h : e.window ∉ keys s.m_Clients ∨ e.event = s.m_RootWindow) :
    OnUnmapNotify s e = s ∧
    (OnUnmapNotify s e).m_Clients = s.m_Clients ∧
    (OnUnmapNotify s e).calls = s.calls := by
  have key : OnUnmapNotify s e = s := by
    rcases h with h | h
    · have hc : count s.m_Clients e.window = 0 :=
        (count_eq_zero_iff _ _).2 ((find_eq_none_iff _ _).2 h)
      simp [OnUnmapNotify, hc]
    · simp [OnUnmapNotify, h]
  rw [key]
  exact ⟨rfl, rfl, rfl⟩

/-- C4. Genuine unmap: when the registry maps client X to frame F and the
notification for X is reported on a window other than the root, then after
`OnUnmapNotify` the registry has no entry for X, the calls issued are the four
of `Unframe` with `XDestroyWindow` issued once, for F, and every other key
looks up as before. -/
theorem OnUnmapNotify_unframes (s : BasicWindowManager) (e : XUnmapEvent) (F : Window)
    (hX : find s.m_Clients e.window = some F) (hroot : e.event ≠ s.m_RootWindow) :
    find (OnUnmapNotify s e).m_Clients e.window = none ∧
    e.window ∉ keys (OnUnmapNotify s e).m_Clients ∧
    destroyedWindows (callsSince s (OnUnmapNotify s e)) = [F] ∧
    (∀ k, k ≠ e.window →
      find (OnUnmapNotify s e).m_Clients k = find s.m_Clients k) ∧
    (OnUnmapNotify s e).m_Clients = erase s.m_Clients e.window := by
  rw [OnUnmapNotify_of_client s e F hX hroot, Unframe_eq, index_of_find _ _ _ hX]
  have hnone : find (erase s.m_Clients e.window) e.window = none := by
    simp [find_erase]
  refine ⟨hnone, (find_eq_none_iff _ _).1 hnone, ?_, ?_, rfl⟩
  · simp [callsSince, destroyedWindows]
  · intro k hk
    simp [find_erase, hk]

/-- C5. Configure forwarding: `OnConfigureRequest` leaves the registry
unchanged; when the window is a managed client with frame F it issues
`XConfigureWindow` on F and then on the window, both with the mask and the
values of the request; when the window is not managed it issues the one call
on the window and nothing else. -/
theorem OnConfigureRequest_forwards (s : BasicWindowManager) (e : XConfigureRequestEvent) :
    (OnConfigureRequest s e).m_Clients = s.m_Clients ∧
    (OnConfigureRequest s e).calls = s.calls ++
      (match find s.m_Clients e.window with
       | some F =>
         [.XConfigureWindow F e.value_mask
            { x := e.x, y := e.y, width := e.width, height := e.height,
              border_width := e.border_width, sibling := e.above, stack_mode := e.detail },
          .XConfigureWindow e.window e.value_mask
            { x := e.x, y := e.y, width := e.width, height := e.height,
              border_width := e.border_width, sibling := e.above, stack_mode := e.detail }]
       | none =>
         [.XConfigureWindow e.window e.value_mask
            { x := e.x, y := e.y, width := e.width, height := e.height,
              border_width := e.border_width, sibling := e.above, stack_mode := e.detail }]) := by
  cases h : find s.m_Clients e.window with
  | none => simp [OnConfigureRequest, count, h, call]
  | some F => simp [OnConfigureRequest, count, h, call, index]

/-- C6. Pre-existing filter: when the attributes of w are fetched and have
`override_redirect` set or a `map_state` other than `IsViewable`,
`Frame(w, true)` leaves the registry unchanged and issues no call after the
attribute query: no create-window, select-input, save-set, reparent or map. -/
theorem Frame_preexisting_filter (s : BasicWindowManager) (w : Window) (reply : FrameReply)
    (a : XWindowAttributes) (ha : reply.attrs = some a)
    (hf : a.override_redirect = true ∨ a.map_state ≠ IsViewable) :
    (Frame s w true reply).m_Clients = s.m_Clients ∧
    (Frame s w true reply).calls = s.calls ++ [.XGetWindowAttributes w] ∧
    (w ∈ keys (Frame s w true reply).m_Clients ↔ w ∈ keys s.m_Clients) := by
  rw [Frame_of_filtered s w reply a ha hf]
  simp [call]

/-- C7. Frame protocol: when the attributes of w are fetched and w passes the
pre-existing filter, `Frame` issues, after the attribute query, exactly:
`XCreateSimpleWindow` under the root at the x, y, width and height of w with
border width 5, border colour 0x9c9c9c and background 0x636363, returning F;
`XSelectInput` on F with SubstructureRedirect|SubstructureNotify;
`XAddToSaveSet` of w; `XReparentWindow` of w into F at (0,0); `XMapWindow` of
F. Afterwards the registry maps w to F and every other key looks up as
before. -/
theorem Frame_protocol (s : BasicWindowManager) (w : Window) (b : Bool) (reply : FrameReply)
    (a : XWindowAttributes) (ha : reply.attrs = some a)
    (hpass : b = false ∨ (a.map_state = IsViewable ∧ a.override_redirect = false)) :
    (Frame s w b reply).calls = s.calls ++
      [.XGetWindowAttributes w,
       .XCreateSimpleWindow s.m_RootWindow a.x a.y a.width a.height 5 0x9c9c9c 0x636363
         reply.frame,
       .XSelectInput reply.frame (SubstructureRedirectMask ||| SubstructureNotifyMask),
       .XAddToSaveSet w,
       .XReparentWindow w reply.frame 0 0,
       .XMapWindow reply.frame] ∧
    find (Frame s w b reply).m_Clients w = some reply.frame ∧
    (w, reply.frame) ∈ (Frame s w b reply).m_Clients ∧
    (∀ k, k ≠ w → find (Frame s w b reply).m_Clients k = find s.m_Clients k) := by
  rw [Frame_of_attrs s w b reply a ha hpass]
  have hfind : find (assign s.m_Clients w reply.frame) w = some reply.frame := by
    simp [find_assign]
  refine ⟨rfl, hfind, mem_of_find _ _ _ hfind, ?_⟩
  intro k hk
  simp [find_assign, hk]

/-- C8. Unframe protocol: when the registry maps w to frame F, `Unframe(w)`
issues exactly, in this order, `XUnmapWindow` of F, `XReparentWindow` of w
under the root at (0,0), `XRemoveFromSaveSet` of w, `XDestroyWindow` of F, and
the registry afterwards is the one before with the entry of w erased. -/
theorem Unframe_protocol (s : BasicWindowManager) (w F : Window)
    (h : find s.m_Clients w = some F) :
    (Unframe s w).calls = s.calls ++
      [.XUnmapWindow F,
       .XReparentWindow w s.m_RootWindow 0 0,
       .XRemoveFromSaveSet w,
       .XDestroyWindow F] ∧
    (Unframe s w).m_Clients = erase s.m_Clients w ∧
    find (Unframe s w).m_Clients w = none ∧
    (∀ k, k ≠ w → find (Unframe s w).m_Clients k = find s.m_Clients k) := by
  rw [Unframe_eq, index_of_find _ _ _ h]
  refine ⟨rfl, rfl, ?_, ?_⟩
  · simp [find_erase]
  · intro k hk
    simp [find_erase, hk]

theorem OnMapRequest_of_attrs (s : BasicWindowManager) (e : XMapRequestEvent)
    (reply : FrameReply) (a : XWindowAttributes) (ha : reply.attrs = some a) :
    OnMapRequest s e reply =
      { s with
        m_Clients := assign s.m_Clients e.window reply.frame
        calls := s.calls ++
          [.XGetWindowAttributes e.window,
           .XCreateSimpleWindow s.m_RootWindow a.x a.y a.width a.height 5 0x9c9c9c 0x636363
             reply.frame,
           .XSelectInput reply.frame (SubstructureRedirectMask ||| SubstructureNotifyMask),
           .XAddToSaveSet e.window,
           .XReparentWindow e.window reply.frame 0 0,
           .XMapWindow reply.frame,
           .XMapWindow e.window] } := by
  unfold OnMapRequest
  rw [Frame_of_attrs s e.window false reply a ha (Or.inl rfl)]
  simp [call]

/-- C9, as amended. Map-Request: when the attributes of X are fetched, after
`OnMapRequest` the registry maps X to the new frame F, and the calls issued
are those of `Frame(X, false)`, ending with `XMapWindow` of F, followed by
`XMapWindow` of X. -/
theorem OnMapRequest_frames_then_maps (s : BasicWindowManager) (e : XMapRequestEvent)
    (reply : FrameReply) (a : XWindowAttributes) (ha : reply.attrs = some a) :
    find (OnMapRequest s e reply).m_Clients e.window = some reply.frame ∧
    e.window ∈ keys (OnMapRequest s e reply).m_Clients ∧
    (OnMapRequest s e reply).calls =
      (Frame s e.window false reply).calls ++ [.XMapWindow e.window] ∧
    (OnMapRequest s e reply).calls = s.calls ++
      [.XGetWindowAttributes e.window,
       .XCreateSimpleWindow s.m_RootWindow a.x a.y a.width a.height 5 0x9c9c9c 0x636363
         reply.frame,
       .XSelectInput reply.frame (SubstructureRedirectMask ||| SubstructureNotifyMask),
       .XAddToSaveSet e.window,
       .XReparentWindow e.window reply.frame 0 0,
       .XMapWindow reply.frame,
       .XMapWindow e.window] := by
  have hfind : find (assign s.m_Clients e.window reply.frame) e.window = some reply.frame := by
    simp [find_assign]
  have hkey : e.window ∈ keys (assign s.m_Clients e.window reply.frame) := by
    by_contra hc
    rw [(find_eq_none_iff _ _).2 hc] at hfind
    exact Option.noConfusion hfind
  refine ⟨?_, ?_, ?_, ?_⟩
  · rw [OnMapRequest_of_attrs s e reply a ha]
    exact hfind
  · rw [OnMapRequest_of_attrs s e reply a ha]
    exact hkey
  · simp [OnMapRequest, call]
  · rw [OnMapRequest_of_attrs s e reply a ha]

theorem reparentOf_lastReparentOf_append (w : Window) (l1 l2 : List XCall) (r : XCall)
    (h : lastReparentOf w l2 = some r) : lastReparentOf w (l1 ++ l2) = some r := by
  induction l1 with
  | nil => simpa using h
  | cons c l1 ih => simp [lastReparentOf, ih]

/-- C2. Inverse law: when the attributes of w are fetched, `Frame(w, false)`
followed by `Unframe(w)` leaves the registry without an entry for w, the last
`XReparentWindow` call issued for w puts it under the root at (0,0), the
registry is the initial one with the entry of w erased, and so equals the
initial registry when w had no entry before. -/
theorem Unframe_Frame_inverse (s : BasicWindowManager) (w : Window) (reply : FrameReply)
    (a : XWindowAttributes) (ha : reply.attrs = some a) :
    find (Unframe (Frame s w false reply) w).m_Clients w = none ∧
    w ∉ keys (Unframe (Frame s w false reply) w).m_Clients ∧
    lastReparentOf w (Unframe (Frame s w false reply) w).calls =
      some (.XReparentWindow w s.m_RootWindow 0 0) ∧
    (Unframe (Frame s w false reply) w).m_Clients = erase s.m_Clients w ∧
    (w ∉ keys s.m_Clients →
      (Unframe (Frame s w false reply) w).m_Clients = s.m_Clients) := by
  have hcl : (Unframe (Frame s w false reply) w).m_Clients = erase s.m_Clients w := by
    rw [Unframe_eq, Frame_of_attrs s w false reply a ha (Or.inl rfl)]
    simp [erase_assign]
  have hnone : find (erase s.m_Clients w) w = none := by simp [find_erase]
  refine ⟨?_, ?_, ?_, hcl, ?_⟩
  · rw [hcl]; exact hnone
  · rw [hcl]; exact (find_eq_none_iff _ _).1 hnone
  · rw [Unframe_eq]
    apply reparentOf_lastReparentOf_append
    rw [Frame_of_attrs s w false reply a ha (Or.inl rfl)]
    simp [lastReparentOf, reparentOf]
  · intro hw
    rw [hcl]
    exact erase_eq_self _ _ ((find_eq_none_iff _ _).2 hw)

/-! ## Sequences of operations: the registry invariant -/

theorem Frame_cases (s : BasicWindowManager) (w : Window) (b : Bool) (reply : FrameReply) :
    Frame s w b reply = s.call (.XGetWindowAttributes w) ∨
    ∃ a, reply.attrs = some a ∧
      (b = false ∨ (a.map_state = IsViewable ∧ a.override_redirect = false)) := by
  cases ha : reply.attrs with
  | none => exact Or.inl (Frame_of_no_attrs s w b reply ha)
  | some a =>
    by_cases hpass : b = false ∨ (a.map_state = IsViewable ∧ a.override_redirect = false)
    · exact Or.inr ⟨a, rfl, hpass⟩
    · left
      have hb : b = true := by
        cases b with
        | false => exact absurd (Or.inl rfl) hpass
        | true => rfl
      subst hb
      apply Frame_of_filtered s w reply a ha
      by_cases ho : a.override_redirect = true
      · exact Or.inl ho
      · right
        intro hm
        apply hpass
        right
        refine ⟨hm, ?_⟩
        cases hov : a.override_redirect with
        | false => rfl
        | true => exact absurd hov ho

theorem OnConfigureRequest_clients (s : BasicWindowManager) (e : XConfigureRequestEvent) :
    (OnConfigureRequest s e).m_Clients = s.m_Clients := by
  cases h : find s.m_Clients e.window with
  | none => simp [OnConfigureRequest, count, h, call]
  | some F => simp [OnConfigureRequest, count, h, call, index]

theorem OnUnmapNotify_cases (s : BasicWindowManager) (e : XUnmapEvent) :
    OnUnmapNotify s e = s ∨ OnUnmapNotify s e = Unframe s e.window := by
  unfold OnUnmapNotify
  split_ifs
  · exact Or.inl rfl
  · exact Or.inl rfl
  · exact Or.inr rfl

/-- What one action can do to the registry: nothing, erase one key, or assign
to one key the handle of a window created during the action. -/
theorem step_clients_cases (s : BasicWindowManager) (a : Action) :
    (step s a).m_Clients = s.m_Clients ∨
    (∃ w, (step s a).m_Clients = erase s.m_Clients w) ∨
    (∃ w f, (step s a).m_Clients = assign s.m_Clients w f ∧
      f ∈ createdFrames (callsSince s (step s a))) := by
  cases a with
  | startupFrame w reply =>
    rcases Frame_cases s w true reply with h | ⟨a, ha, hpass⟩
    · left
      simp [step, h, call]
    · right; right
      refine ⟨w, reply.frame, ?_⟩
      simp [step, Frame_of_attrs s w true reply a ha hpass, callsSince, createdFrames]
  | event e reply =>
    simp only [step, dispatch]
    split_ifs
    · exact Or.inl rfl
    · exact Or.inl (OnConfigureRequest_clients s _)
    · exact Or.inl rfl
    · cases ha : reply.attrs with
      | none =>
        left
        simp [OnMapRequest, Frame_of_no_attrs s _ false reply ha, call]
      | some a =>
        right; right
        refine ⟨e.xmaprequest.window, reply.frame, ?_⟩
        simp [OnMapRequest_of_attrs s _ reply a ha, callsSince, createdFrames]
    · exact Or.inl rfl
    · rcases OnUnmapNotify_cases s e.xunmap with h | h
      · exact Or.inl (by rw [h])
      · right; left
        exact ⟨e.xunmap.window, by rw [h, Unframe_eq]⟩
    · exact Or.inl rfl
    · exact Or.inl rfl
    · exact Or.inl rfl

theorem step_preserves_nodup (s : BasicWindowManager) (a : Action) (hfresh : FreshStep s a)
    (h : (keys s.m_Clients).Nodup ∧ (frames s.m_Clients).Nodup) :
    (keys (step s a).m_Clients).Nodup ∧ (frames (step s a).m_Clients).Nodup := by
  rcases step_clients_cases s a with hc | ⟨w, hc⟩ | ⟨w, f, hc, hf⟩
  · rw [hc]; exact h
  · rw [hc]; exact ⟨nodup_keys_erase _ _ h.1, nodup_frames_erase _ _ h.2⟩
  · rw [hc]
    exact ⟨nodup_keys_assign _ _ _ h.1, nodup_frames_assign _ _ _ h.2 (hfresh f hf)⟩

theorem exec_preserves_nodup (as : List Action) (s : BasicWindowManager)
    (hfresh : FreshRun s as)
    (h : (keys s.m_Clients).Nodup ∧ (frames s.m_Clients).Nodup) :
    (keys (exec s as).m_Clients).Nodup ∧ (frames (exec s as).m_Clients).Nodup := by
  induction as generalizing s with
  | nil => exact h
  | cons a as ih =>
    exact ih (step s a) hfresh.2 (step_preserves_nodup s a hfresh.1 h)

/-- C1. Bijection invariant: starting from the empty registry, after any finite
sequence of startup `Frame(w, true)` calls and dispatched events in which every
window handle returned by `XCreateSimpleWindow` differs from the frames then
recorded, the registry has no two entries with the same client key and no two
entries with the same frame: a client key has exactly one frame, and no frame
is recorded for two different clients. -/
theorem registry_bijection (root : Window) (as : List Action)
    (hfresh : FreshRun (create root) as) :
    (keys (exec (create root) as).m_Clients).Nodup ∧
    (frames (exec (create root) as).m_Clients).Nodup ∧
    (∀ c f1 f2, (c, f1) ∈ (exec (create root) as).m_Clients →
      (c, f2) ∈ (exec (create root) as).m_Clients → f1 = f2) ∧
    (∀ c1 c2 f, (c1, f) ∈ (exec (create root) as).m_Clients →
      (c2, f) ∈ (exec (create root) as).m_Clients → c1 = c2) ∧
    (∀ c1 c2 f, find (exec (create root) as).m_Clients c1 = some f →
      find (exec (create root) as).m_Clients c2 = some f → c1 = c2) := by
  have h := exec_preserves_nodup as (create root) hfresh
    ⟨by simp [create, keys], by simp [create, frames]⟩
  refine ⟨h.1, h.2, frame_unique_of_nodup_keys _ h.1, client_unique_of_nodup_frames _ h.2, ?_⟩
  intro c1 c2 f h1 h2
  exact client_unique_of_nodup_frames _ h.2 c1 c2 f (mem_of_find _ _ _ h1) (mem_of_find _ _ _ h2)

/-- C1, checked on `sampleRun`, in which the handle 100 is returned again after
its first frame was destroyed. -/
theorem registry_bijection_witness :
    FreshRun (create 1) sampleRun ∧
    ((keys (exec (create 1) sampleRun).m_Clients).Nodup ∧
     (frames (exec (create 1) sampleRun).m_Clients).Nodup ∧
     (∀ c f1 f2, (c, f1) ∈ (exec (create 1) sampleRun).m_Clients →
       (c, f2) ∈ (exec (create 1) sampleRun).m_Clients → f1 = f2) ∧
     (∀ c1 c2 f, (c1, f) ∈ (exec (create 1) sampleRun).m_Clients →
       (c2, f) ∈ (exec (create 1) sampleRun).m_Clients → c1 = c2) ∧
     (∀ c1 c2 f, find (exec (create 1) sampleRun).m_Clients c1 = some f →
       find (exec (create 1) sampleRun).m_Clients c2 = some f → c1 = c2)) :=
  ⟨by decide, registry_bijection 1 sampleRun (by decide)⟩

/-- C2, checked on `sampleState` and the unmanaged window 7. -/
theorem Unframe_Frame_inverse_witness :
    find (Unframe (Frame sampleState 7 false ⟨some sampleAttrs, 9⟩) 7).m_Clients 7 = none ∧
    7 ∉ keys (Unframe (Frame sampleState 7 false ⟨some sampleAttrs, 9⟩) 7).m_Clients ∧
    lastReparentOf 7 (Unframe (Frame sampleState 7 false ⟨some sampleAttrs, 9⟩) 7).calls =
      some (.XReparentWindow 7 1 0 0) ∧
    (Unframe (Frame sampleState 7 false ⟨some sampleAttrs, 9⟩) 7).m_Clients =
      erase [(5, 6)] 7 ∧
    (7 ∉ keys sampleState.m_Clients →
      (Unframe (Frame sampleState 7 false ⟨some sampleAttrs, 9⟩) 7).m_Clients = [(5, 6)]) :=
  Unframe_Frame_inverse sampleState 7 ⟨some sampleAttrs, 9⟩ sampleAttrs rfl

/-- C3, checked on a notification for the managed window 5 reported on the
root window 1. -/
theorem OnUnmapNotify_filtered_witness :
    (5 ∉ keys sampleState.m_Clients ∨ (1 : Window) = sampleState.m_RootWindow) ∧
    (OnUnmapNotify sampleState ⟨1, 5⟩ = sampleState ∧
     (OnUnmapNotify sampleState ⟨1, 5⟩).m_Clients = [(5, 6)] ∧
     (OnUnmapNotify sampleState ⟨1, 5⟩).calls = []) :=
  ⟨Or.inr rfl, OnUnmapNotify_filtered sampleState ⟨1, 5⟩ (Or.inr rfl)⟩

/-- C4, checked on a notification for the managed window 5 reported on its
frame 6. -/
theorem OnUnmapNotify_unframes_witness :
    find sampleState.m_Clients 5 = some 6 ∧
    (find (OnUnmapNotify sampleState ⟨6, 5⟩).m_Clients 5 = none ∧
     5 ∉ keys (OnUnmapNotify sampleState ⟨6, 5⟩).m_Clients ∧
     destroyedWindows (callsSince sampleState (OnUnmapNotify sampleState ⟨6, 5⟩)) = [6] ∧
     (∀ k, k ≠ 5 →
       find (OnUnmapNotify sampleState ⟨6, 5⟩).m_Clients k = find sampleState.m_Clients k) ∧
     (OnUnmapNotify sampleState ⟨6, 5⟩).m_Clients = erase sampleState.m_Clients 5) :=
  ⟨rfl, OnUnmapNotify_unframes sampleState ⟨6, 5⟩ 6 rfl (by decide)⟩

/-- C6, checked on a viewable window 7 that sets `override_redirect`. -/
theorem Frame_preexisting_filter_witness :
    (sampleOverrideAttrs.override_redirect = true ∨
      sampleOverrideAttrs.map_state ≠ IsViewable) ∧
    ((Frame sampleState 7 true ⟨some sampleOverrideAttrs, 9⟩).m_Clients = [(5, 6)] ∧
     (Frame sampleState 7 true ⟨some sampleOverrideAttrs, 9⟩).calls =
       [.XGetWindowAttributes 7] ∧
     (7 ∈ keys (Frame sampleState 7 true ⟨some sampleOverrideAttrs, 9⟩).m_Clients ↔
       7 ∈ keys sampleState.m_Clients)) :=
  ⟨Or.inl rfl,
   Frame_preexisting_filter sampleState 7 ⟨some sampleOverrideAttrs, 9⟩ sampleOverrideAttrs rfl
     (Or.inl rfl)⟩

/-- C7, checked on the viewable pre-existing window 7 and the new frame 9. -/
theorem Frame_protocol_witness :
    (Frame sampleState 7 true ⟨some sampleAttrs, 9⟩).calls =
      [.XGetWindowAttributes 7,
       .XCreateSimpleWindow 1 10 20 300 200 5 0x9c9c9c 0x636363 9,
       .XSelectInput 9 1572864,
       .XAddToSaveSet 7,
       .XReparentWindow 7 9 0 0,
       .XMapWindow 9] ∧
    find (Frame sampleState 7 true ⟨some sampleAttrs, 9⟩).m_Clients 7 = some 9 ∧
    (7, 9) ∈ (Frame sampleState 7 true ⟨some sampleAttrs, 9⟩).m_Clients ∧
    (∀ k, k ≠ 7 →
      find (Frame sampleState 7 true ⟨some sampleAttrs, 9⟩).m_Clients k =
        find sampleState.m_Clients k) :=
  Frame_protocol sampleState 7 true ⟨some sampleAttrs, 9⟩ sampleAttrs rfl
    (Or.inr ⟨rfl, rfl⟩)

/-- C8, checked on the managed window 5 with frame 6. -/
theorem Unframe_protocol_witness :
    find sampleState.m_Clients 5 = some 6 ∧
    ((Unframe sampleState 5).calls =
       [.XUnmapWindow 6, .XReparentWindow 5 1 0 0, .XRemoveFromSaveSet 5,
        .XDestroyWindow 6] ∧
     (Unframe sampleState 5).m_Clients = erase sampleState.m_Clients 5 ∧
     find (Unframe sampleState 5).m_Clients 5 = none ∧
     (∀ k, k ≠ 5 → find (Unframe sampleState 5).m_Clients k = find sampleState.m_Clients k)) :=
  ⟨rfl, Unframe_protocol sampleState 5 6 rfl⟩

/-- C9 as stated fails: when `XGetWindowAttributes` fails for window 7, after
`OnMapRequest` the registry has no entry for 7, no frame was created or
mapped, and 7 itself was mapped. -/
theorem OnMapRequest_no_attrs_counterexample :
    find (OnMapRequest (create 1) ⟨7⟩ ⟨none, 9⟩).m_Clients 7 = none ∧
    7 ∉ keys (OnMapRequest (create 1) ⟨7⟩ ⟨none, 9⟩).m_Clients ∧
    (OnMapRequest (create 1) ⟨7⟩ ⟨none, 9⟩).calls =
      [.XGetWindowAttributes 7, .XMapWindow 7] := by
  decide

/-- C9 as amended, checked on a Map-Request for window 7 answered with frame 9. -/
theorem OnMapRequest_frames_then_maps_witness :
    find (OnMapRequest sampleState ⟨7⟩ ⟨some sampleAttrs, 9⟩).m_Clients 7 = some 9 ∧
    7 ∈ keys (OnMapRequest sampleState ⟨7⟩ ⟨some sampleAttrs, 9⟩).m_Clients ∧
    (OnMapRequest sampleState ⟨7⟩ ⟨some sampleAttrs, 9⟩).calls =
      (Frame sampleState 7 false ⟨some sampleAttrs, 9⟩).calls ++ [.XMapWindow 7] ∧
    (OnMapRequest sampleState ⟨7⟩ ⟨some sampleAttrs, 9⟩).calls =
      [.XGetWindowAttributes 7,
       .XCreateSimpleWindow 1 10 20 300 200 5 0x9c9c9c 0x636363 9,
       .XSelectInput 9 1572864,
       .XAddToSaveSet 7,
       .XReparentWindow 7 9 0 0,
       .XMapWindow 9,
       .XMapWindow 7] :=
  OnMapRequest_frames_then_maps sampleState ⟨7⟩ ⟨some sampleAttrs, 9⟩ sampleAttrs rfl

/-! ## The startup handshake -/

theorem foldl_OnWMDetected_fields (errs : List XErrorEvent) (s : BasicWindowManager) :
    (errs.foldl OnWMDetected s).m_RootWindow = s.m_RootWindow ∧
    (errs.foldl OnWMDetected s).m_Clients = s.m_Clients ∧
    (errs.foldl OnWMDetected s).calls = s.calls := by
  induction errs generalizing s with
  | nil => exact ⟨rfl, rfl, rfl⟩
  | cons e errs ih => exact ih (OnWMDetected s e)

theorem handshake_fields (s : BasicWindowManager) (errs : List XErrorEvent) :
    (handshake s errs).m_RootWindow = s.m_RootWindow ∧
    (handshake s errs).m_Clients = s.m_Clients ∧
    (handshake s errs).calls = s.calls ++
      [.XSetErrorHandler .OnWMDetected,
       .XSelectInput s.m_RootWindow (SubstructureRedirectMask ||| SubstructureNotifyMask),
       .XSync false] := by
  unfold handshake
  have h := foldl_OnWMDetected_fields errs
    ((({ s with wm_detected := false }.call (.XSetErrorHandler .OnWMDetected)).call
      (.XSelectInput s.m_RootWindow
        (SubstructureRedirectMask ||| SubstructureNotifyMask))).call (.XSync false))
  refine ⟨h.1, h.2.1, ?_⟩
  refine h.2.2.trans ?_
  simp [call]

/-- The handler assigns the flag on every call. Were it called twice during
the handshake, with `BadAccess` and then `BadWindow`, the second call would
clear the flag and `Run` would go on to grab the server, frame window 7 and
enter the event loop. The handshake has one request that can fail, so the
server does not deliver such a pair. -/
theorem Run_BadAccess_then_other :
    Run (create 1) sampleRunInput =
      ({ m_RootWindow := 1,
         m_Clients := [(7, 9)],
         wm_detected := false,
         calls :=
           [.XSetErrorHandler .OnWMDetected,
            .XSelectInput 1 1572864,
            .XSync false,
            .XSetErrorHandler .OnXError,
            .XGrabServer,
            .XQueryTree 1,
            .XGetWindowAttributes 7,
            .XCreateSimpleWindow 1 10 20 300 200 5 0x9c9c9c 0x636363 9,
            .XSelectInput 9 1572864,
            .XAddToSaveSet 7,
            .XReparentWindow 7 9 0 0,
            .XMapWindow 9,
            .XFree,
            .XUngrabServer,
            .XNextEvent] },
       .awaitingEvent) := by
  decide

/-! ## Failure isolation, ignored events, the frame condition of `Unframe` -/

/-- C11. Attribute-failure isolation: when `XGetWindowAttributes` fails for w,
`Frame(w, b)` with either value of b returns at once: the registry is left
exactly as it was and the attribute query is the only call issued, so no
create-window, select-input, save-set, reparent or map request is made. -/
theorem Frame_attribute_failure (s : BasicWindowManager) (w : Window) (b : Bool)
    (reply : FrameReply) (ha : reply.attrs = none) :
    (Frame s w b reply).m_Clients = s.m_Clients ∧
    (Frame s w b reply).calls = s.calls ++ [.XGetWindowAttributes w] ∧
    createdFrames (callsSince s (Frame s w b reply)) = [] ∧
    (Frame s w b reply).m_RootWindow = s.m_RootWindow := by
  rw [Frame_of_no_attrs s w b reply ha]
  simp [call, callsSince, createdFrames]

/-- C11, checked on the unmanaged window 7 next to the managed client 5. -/
theorem Frame_attribute_failure_witness :
    (Frame sampleState 7 false ⟨none, 9⟩).m_Clients = [(5, 6)] ∧
    (Frame sampleState 7 false ⟨none, 9⟩).calls = [.XGetWindowAttributes 7] ∧
    createdFrames (callsSince sampleState (Frame sampleState 7 false ⟨none, 9⟩)) = [] ∧
    (Frame sampleState 7 false ⟨none, 9⟩).m_RootWindow = 1 :=
  Frame_attribute_failure sampleState 7 false ⟨none, 9⟩ rfl

theorem dispatch_of_ignored (s : BasicWindowManager) (e : XEvent) (reply : FrameReply)
    (h1 : e.type ≠ ConfigureRequest) (h2 : e.type ≠ MapRequest) (h3 : e.type ≠ UnmapNotify) :
    dispatch s e reply = s := by
  unfold dispatch
  simp only [h1, h2, h3, if_false, OnCreateNotify, OnConfigureNotify, OnMapNotify,
    OnReparentNotify, OnDestroyNotify, ite_self]

/-- C15. Ignored events: when the type of the event is Create-Notify,
Configure-Notify, Map-Notify, Reparent-Notify or Destroy-Notify, or is none of
the eight types the dispatcher recognises, the dispatch returns the state it
was given: the registry is unchanged and no Xlib call is issued. -/
theorem dispatch_ignored (s : BasicWindowManager) (e : XEvent) (reply : FrameReply)
    (h : e.type ∈ [CreateNotify, ConfigureNotify, MapNotify, ReparentNotify, DestroyNotify] ∨
      e.type ∉ [CreateNotify, ConfigureRequest, ConfigureNotify, MapRequest, MapNotify,
        UnmapNotify, ReparentNotify, DestroyNotify]) :
    dispatch s e reply = s ∧
    (dispatch s e reply).m_Clients = s.m_Clients ∧
    (dispatch s e reply).calls = s.calls := by
  have key : dispatch s e reply = s := by
    apply dispatch_of_ignored
    · rcases h with h | h
      · intro hc
        rw [hc] at h
        revert h
        decide
      · intro hc
        apply h
        simp [hc]
    · rcases h with h | h
      · intro hc
        rw [hc] at h
        revert h
        decide
      · intro hc
        apply h
        simp [hc]
    · rcases h with h | h
      · intro hc
        rw [hc] at h
        revert h
        decide
      · intro hc
        apply h
        simp [hc]
  rw [key]
  exact ⟨rfl, rfl, rfl⟩

/-- C15, checked on a Reparent-Notify event about the managed client 5. -/
theorem dispatch_ignored_witness :
    dispatch sampleState (sampleEvent ReparentNotify 5 6) ⟨some sampleAttrs, 9⟩ = sampleState ∧
    (dispatch sampleState (sampleEvent ReparentNotify 5 6) ⟨some sampleAttrs, 9⟩).m_Clients =
      [(5, 6)] ∧
    (dispatch sampleState (sampleEvent ReparentNotify 5 6) ⟨some sampleAttrs, 9⟩).calls = [] :=
  dispatch_ignored sampleState (sampleEvent ReparentNotify 5 6) ⟨some sampleAttrs, 9⟩
    (Or.inl (by decide))

/-- C16. Frame condition of `Unframe`: for every state and every window w,
present or not, after `Unframe(w)` the registry has no entry for w and every
other key looks up, and every entry of another client is, as before; the
handle unmapped and destroyed is the recorded frame, or 0 when w has no entry;
when w has no entry the unmap and the destroy name window 0 and the registry
equals the initial one. -/
theorem Unframe_frame_condition (s : BasicWindowManager) (w : Window) :
    find (Unframe s w).m_Clients w = none ∧
    w ∉ keys (Unframe s w).m_Clients ∧
    (∀ k, k ≠ w → find (Unframe s w).m_Clients k = find s.m_Clients k) ∧
    (∀ k v, k ≠ w → ((k, v) ∈ (Unframe s w).m_Clients ↔ (k, v) ∈ s.m_Clients)) ∧
    (Unframe s w).calls = s.calls ++
      [.XUnmapWindow ((find s.m_Clients w).getD 0),
       .XReparentWindow w s.m_RootWindow 0 0,
       .XRemoveFromSaveSet w,
       .XDestroyWindow ((find s.m_Clients w).getD 0)] ∧
    (w ∉ keys s.m_Clients →
      (Unframe s w).calls = s.calls ++
        [.XUnmapWindow 0,
         .XReparentWindow w s.m_RootWindow 0 0,
         .XRemoveFromSaveSet w,
         .XDestroyWindow 0] ∧
      (Unframe s w).m_Clients = s.m_Clients) := by
  have hidx : (index s.m_Clients w).2 = (find s.m_Clients w).getD 0 := by
    cases h : find s.m_Clients w with
    | none => simp [index, h]
    | some F => simp [index, h]
  have hnone : find (erase s.m_Clients w) w = none := by simp [find_erase]
  rw [Unframe_eq, hidx]
  refine ⟨hnone, (find_eq_none_iff _ _).1 hnone, ?_, ?_, rfl, ?_⟩
  · intro k hk
    simp [find_erase, hk]
  · intro k v hk
    simp [erase, List.mem_filter, hk]
  · intro hw
    have hf : find s.m_Clients w = none := (find_eq_none_iff _ _).2 hw
    simp [hf, erase_eq_self _ _ hf]

/-- C16, checked on the window 7, which has no entry, next to the client 5. -/
theorem Unframe_frame_condition_witness :
    find (Unframe sampleState 7).m_Clients 7 = none ∧
    7 ∉ keys (Unframe sampleState 7).m_Clients ∧
    (∀ k, k ≠ 7 → find (Unframe sampleState 7).m_Clients k = find sampleState.m_Clients k) ∧
    (∀ k v, k ≠ 7 →
      ((k, v) ∈ (Unframe sampleState 7).m_Clients ↔ (k, v) ∈ sampleState.m_Clients)) ∧
    (Unframe sampleState 7).calls =
      [.XUnmapWindow 0, .XReparentWindow 7 1 0 0, .XRemoveFromSaveSet 7,
       .XDestroyWindow 0] ∧
    (7 ∉ keys sampleState.m_Clients →
      (Unframe sampleState 7).calls =
        [.XUnmapWindow 0, .XReparentWindow 7 1 0 0, .XRemoveFromSaveSet 7,
         .XDestroyWindow 0] ∧
      (Unframe sampleState 7).m_Clients = [(5, 6)]) :=
  Unframe_frame_condition sampleState 7

/-! ## Startup after the handshake -/

/-- `Run` once the handshake has left the flag unset: the part from
`XSetErrorHandler(&OnXError)` on. -/
theorem Run_of_not_detected (s : BasicWindowManager) (inp : RunInput)
    (hflag : (handshake s inp.handshakeErrors).wm_detected = false) :
    Run s inp =
      match inp.queryTree with
      | none =>
        ((((handshake s inp.handshakeErrors).call (.XSetErrorHandler .OnXError)).call
          .XGrabServer).call (.XQueryTree s.m_RootWindow), .returned)
      | some (returned_root, top_level_windows) =>
        if returned_root != s.m_RootWindow then
          ((((handshake s inp.handshakeErrors).call (.XSetErrorHandler .OnXError)).call
            .XGrabServer).call (.XQueryTree s.m_RootWindow), .returned)
        else
          (eventLoop
            (((frameTopLevel
              ((((handshake s inp.handshakeErrors).call (.XSetErrorHandler .OnXError)).call
                .XGrabServer).call (.XQueryTree s.m_RootWindow))
              inp.startupReplies 0 top_level_windows).call .XFree).call .XUngrabServer)
            inp.events, .awaitingEvent) := by
  have hroot := (handshake_fields s inp.handshakeErrors).1
  unfold Run
  simp only [hflag, call, hroot]
  rfl

/-- The state of `Run` once the server is grabbed and the tree queried: the
registry and the root are those at entry, six calls have been issued. -/
theorem grabbed_fields (s : BasicWindowManager) (errs : List XErrorEvent) :
    ((((handshake s errs).call (.XSetErrorHandler .OnXError)).call
      .XGrabServer).call (.XQueryTree s.m_RootWindow)).m_RootWindow = s.m_RootWindow ∧
    ((((handshake s errs).call (.XSetErrorHandler .OnXError)).call
      .XGrabServer).call (.XQueryTree s.m_RootWindow)).m_Clients = s.m_Clients ∧
    ((((handshake s errs).call (.XSetErrorHandler .OnXError)).call
      .XGrabServer).call (.XQueryTree s.m_RootWindow)).calls = s.calls ++
      [.XSetErrorHandler .OnWMDetected,
       .XSelectInput s.m_RootWindow (SubstructureRedirectMask ||| SubstructureNotifyMask),
       .XSync false,
       .XSetErrorHandler .OnXError,
       .XGrabServer,
       .XQueryTree s.m_RootWindow] := by
  have h := handshake_fields s errs
  refine ⟨h.1, h.2.1, ?_⟩
  simp [call, h.2.2]

/-- When the handshake leaves the flag unset and `XQueryTree` fails or reports
another root, `Run` returns with the registry untouched, and the calls it has
issued end with `XGrabServer` and `XQueryTree`: no `XUngrabServer` follows. -/
theorem Run_fatal_startup (s : BasicWindowManager) (inp : RunInput)
    (hflag : (handshake s inp.handshakeErrors).wm_detected = false)
    (hq : inp.queryTree = none ∨
      ∃ rr ws, inp.queryTree = some (rr, ws) ∧ rr ≠ s.m_RootWindow) :
    (Run s inp).2 = .returned ∧
    (Run s inp).1.m_Clients = s.m_Clients ∧
    (Run s inp).1.calls = s.calls ++
      [.XSetErrorHandler .OnWMDetected,
       .XSelectInput s.m_RootWindow (SubstructureRedirectMask ||| SubstructureNotifyMask),
       .XSync false,
       .XSetErrorHandler .OnXError,
       .XGrabServer,
       .XQueryTree s.m_RootWindow] := by
  have hg := grabbed_fields s inp.handshakeErrors
  have hrun : Run s inp =
      ((((handshake s inp.handshakeErrors).call (.XSetErrorHandler .OnXError)).call
        .XGrabServer).call (.XQueryTree s.m_RootWindow), .returned) := by
    rw [Run_of_not_detected s inp hflag]
    rcases hq with hq | ⟨rr, ws, hq, hne⟩
    · rw [hq]
    · rw [hq]
      simp [hne]
  rw [hrun]
  exact ⟨rfl, hg.2.1, hg.2.2⟩

/-- C14, the code at the failing inputs: after a clean handshake, when
`XQueryTree` fails, and when it reports a root other than the manager's, `Run`
returns with an empty registry, no window framed and no event fetched, but the
last calls it issued are `XGrabServer` and `XQueryTree`: the grab is not
followed by `XUngrabServer`. -/
theorem Run_fatal_startup_keeps_grab :
    Run (create 1) sampleQueryFailure =
      ({ m_RootWindow := 1,
         m_Clients := [],
         wm_detected := false,
         calls :=
           [.XSetErrorHandler .OnWMDetected,
            .XSelectInput 1 1572864,
            .XSync false,
            .XSetErrorHandler .OnXError,
            .XGrabServer,
            .XQueryTree 1] },
       .returned) ∧
    Run (create 1) sampleRootMismatch =
      ({ m_RootWindow := 1,
         m_Clients := [],
         wm_detected := false,
         calls :=
           [.XSetErrorHandler .OnWMDetected,
            .XSelectInput 1 1572864,
            .XSync false,
            .XSetErrorHandler .OnXError,
            .XGrabServer,
            .XQueryTree 1] },
       .returned) ∧
    List.count XCall.XGrabServer (Run (create 1) sampleQueryFailure).1.calls = 1 ∧
    List.count XCall.XUngrabServer (Run (create 1) sampleQueryFailure).1.calls = 0 ∧
    List.count XCall.XGrabServer (Run (create 1) sampleRootMismatch).1.calls = 1 ∧
    List.count XCall.XUngrabServer (Run (create 1) sampleRootMismatch).1.calls = 0 := by
  decide

/-! ## Frame lifetime -/

/-- C13, the code at the failing input: from the empty registry, two
Map-Request events for window 7 are answered with the new handles 100 and 101.
Both handles are fresh when returned. Afterwards the registry records 101 only,
while the windows created and not destroyed are 100 and 101: the frame 100 is
live and outside the registry. -/
theorem remap_leaves_frame_outside_registry :
    FreshLiveRun (create 1) sampleRemap ∧
    (exec (create 1) sampleRemap).m_Clients = [(7, 101)] ∧
    frames (exec (create 1) sampleRemap).m_Clients = [101] ∧
    liveFrames [] (exec (create 1) sampleRemap).calls = [100, 101] ∧
    destroyedWindows (exec (create 1) sampleRemap).calls = [] := by
  decide

/-! ## The successful startup pass -/

theorem handlerCalls_append (l1 l2 : List XCall) (h1 : handlerCalls l1)
    (h2 : handlerCalls l2) : handlerCalls (l1 ++ l2) := by
  unfold handlerCalls at *
  simp only [List.mem_append, not_or]
  exact ⟨⟨h1.1, h2.1⟩, ⟨h1.2.1, h2.2.1⟩, ⟨h1.2.2, h2.2.2⟩⟩

theorem Frame_calls (s : BasicWindowManager) (w : Window) (b : Bool) (reply : FrameReply) :
    ∃ l, (Frame s w b reply).calls = s.calls ++ l ∧ handlerCalls l ∧
      (Frame s w b reply).m_RootWindow = s.m_RootWindow := by
  rcases Frame_cases s w b reply with h | ⟨a, ha, hpass⟩
  · refine ⟨[.XGetWindowAttributes w], ?_, ?_, ?_⟩
    · rw [h]; rfl
    · simp [handlerCalls]
    · rw [h]; rfl
  · rw [Frame_of_attrs s w b reply a ha hpass]
    exact ⟨_, rfl, by simp [handlerCalls], rfl⟩

theorem OnConfigureRequest_calls (s : BasicWindowManager) (e : XConfigureRequestEvent) :
    ∃ l, (OnConfigureRequest s e).calls = s.calls ++ l ∧ handlerCalls l ∧
      (OnConfigureRequest s e).m_RootWindow = s.m_RootWindow := by
  cases h : find s.m_Clients e.window with
  | none =>
    exact ⟨[.XConfigureWindow e.window e.value_mask
        { x := e.x, y := e.y, width := e.width, height := e.height,
          border_width := e.border_width, sibling := e.above, stack_mode := e.detail }],
      by simp [OnConfigureRequest, count, h, call],
      by simp [handlerCalls],
      by simp [OnConfigureRequest, count, h, call]⟩
  | some F =>
    exact ⟨[.XConfigureWindow F e.value_mask
        { x := e.x, y := e.y, width := e.width, height := e.height,
          border_width := e.border_width, sibling := e.above, stack_mode := e.detail },
       .XConfigureWindow e.window e.value_mask
        { x := e.x, y := e.y, width := e.width, height := e.height,
          border_width := e.border_width, sibling := e.above, stack_mode := e.detail }],
      by simp [OnConfigureRequest, count, h, call, index],
      by simp [handlerCalls],
      by simp [OnConfigureRequest, count, h, call]⟩

theorem dispatch_calls (s : BasicWindowManager) (e : XEvent) (reply : FrameReply) :
    ∃ l, (dispatch s e reply).calls = s.calls ++ l ∧ handlerCalls l ∧
      (dispatch s e reply).m_RootWindow = s.m_RootWindow := by
  have hself : ∃ l, s.calls = s.calls ++ l ∧ handlerCalls l ∧
      s.m_RootWindow = s.m_RootWindow :=
    ⟨[], by simp, by simp [handlerCalls], rfl⟩
  unfold dispatch
  split_ifs
  · exact hself
  · exact OnConfigureRequest_calls s e.xconfigurerequest
  · exact hself
  · obtain ⟨l, hl, hq, hr⟩ := Frame_calls s e.xmaprequest.window false reply
    refine ⟨l ++ [.XMapWindow e.xmaprequest.window], ?_, ?_, ?_⟩
    · simp [OnMapRequest, call, hl]
    · exact handlerCalls_append _ _ hq (by simp [handlerCalls])
    · simpa [OnMapRequest, call] using hr
  · exact hself
  · rcases OnUnmapNotify_cases s e.xunmap with h | h
    · rw [h]; exact hself
    · rw [h, Unframe_eq]
      exact ⟨_, rfl, by simp [handlerCalls], rfl⟩
  · exact hself
  · exact hself
  · exact hself

theorem step_calls (s : BasicWindowManager) (a : Action) :
    ∃ l, (step s a).calls = s.calls ++ l ∧ handlerCalls l ∧
      (step s a).m_RootWindow = s.m_RootWindow := by
  cases a with
  | startupFrame w reply => exact Frame_calls s w true reply
  | event e reply => exact dispatch_calls s e reply

theorem exec_calls (as : List Action) (s : BasicWindowManager) :
    ∃ l, (exec s as).calls = s.calls ++ l ∧ handlerCalls l ∧
      (exec s as).m_RootWindow = s.m_RootWindow := by
  induction as generalizing s with
  | nil => exact ⟨[], by simp [exec], by simp [handlerCalls], rfl⟩
  | cons a as ih =>
    obtain ⟨l1, h1, q1, r1⟩ := step_calls s a
    obtain ⟨l2, h2, q2, r2⟩ := ih (step s a)
    refine ⟨l1 ++ l2, ?_, handlerCalls_append _ _ q1 q2, ?_⟩
    · simp only [exec]
      rw [h2, h1, List.append_assoc]
    · simp only [exec]
      rw [r2, r1]

/-- The startup loop is `Frame(w, true)` performed for each window in order. -/
theorem frameTopLevel_eq_exec (replies : Nat → FrameReply) (ws : List Window) (i : Nat)
    (s : BasicWindowManager) :
    frameTopLevel s replies i ws = exec s (startupActions replies i ws) := by
  induction ws generalizing s i with
  | nil => rfl
  | cons w ws ih =>
    simp only [frameTopLevel, startupActions, exec, step]
    exact ih (i + 1) _

/-- The event loop starts by calling `XNextEvent`, and never grabs or ungrabs
the server. -/
theorem eventLoop_calls (evs : List (XEvent × FrameReply)) (t : BasicWindowManager) :
    ∃ rest, (eventLoop t evs).calls = t.calls ++ XCall.XNextEvent :: rest ∧
      XCall.XGrabServer ∉ rest ∧ XCall.XUngrabServer ∉ rest := by
  induction evs generalizing t with
  | nil => exact ⟨[], by simp [eventLoop, call], by simp, by simp⟩
  | cons p evs ih =>
    obtain ⟨e, reply⟩ := p
    obtain ⟨l, hl, hq, _⟩ := dispatch_calls (t.call .XNextEvent) e reply
    obtain ⟨rest, hrest, hg, hu⟩ := ih (dispatch (t.call .XNextEvent) e reply)
    refine ⟨l ++ XCall.XNextEvent :: rest, ?_, ?_, ?_⟩
    · simp only [eventLoop]
      rw [hrest, hl]
      simp [call]
    · simp only [List.mem_append, List.mem_cons, not_or]
      exact ⟨hq.1, by simp, hg⟩
    · simp only [List.mem_append, List.mem_cons, not_or]
      exact ⟨hq.2.1, by simp, hu⟩

/-- C12. Successful startup pass: when the handshake leaves the flag unset and
`XQueryTree` succeeds with the manager's root and the children ws, `Run` does
not return but reaches the event loop in a state t, and up to t it has issued
the three handshake calls, `XSetErrorHandler(&OnXError)`, one `XGrabServer`,
`XQueryTree`, then the calls of `Frame(c, true)` for each c of ws in order
(none of them a grab, an ungrab or an event fetch), then `XFree` and one
`XUngrabServer`; the next call is the first `XNextEvent`. The whole run
holds exactly one grab and one ungrab. With no child the startup pass issues
no call and the registry at t is the one `Run` was entered with, empty for a
new manager. -/
theorem Run_startup_pass (s : BasicWindowManager) (inp : RunInput) (ws : List Window)
    (hflag : (handshake s inp.handshakeErrors).wm_detected = false)
    (hq : inp.queryTree = some (s.m_RootWindow, ws)) :
    ∃ (g t : BasicWindowManager) (framing rest : List XCall),
      (g.m_RootWindow = s.m_RootWindow ∧ g.m_Clients = s.m_Clients ∧
        g.wm_detected = false ∧
        g.calls = s.calls ++
          [.XSetErrorHandler .OnWMDetected,
           .XSelectInput s.m_RootWindow (SubstructureRedirectMask ||| SubstructureNotifyMask),
           .XSync false,
           .XSetErrorHandler .OnXError,
           .XGrabServer,
           .XQueryTree s.m_RootWindow]) ∧
      ((exec g (startupActions inp.startupReplies 0 ws)).calls = g.calls ++ framing ∧
        handlerCalls framing) ∧
      t = ((exec g (startupActions inp.startupReplies 0 ws)).call .XFree).call
        .XUngrabServer ∧
      Run s inp = (eventLoop t inp.events, .awaitingEvent) ∧
      (Run s inp).1.calls = s.calls ++
          [.XSetErrorHandler .OnWMDetected,
           .XSelectInput s.m_RootWindow (SubstructureRedirectMask ||| SubstructureNotifyMask),
           .XSync false,
           .XSetErrorHandler .OnXError,
           .XGrabServer,
           .XQueryTree s.m_RootWindow] ++
          framing ++ [.XFree, .XUngrabServer] ++ XCall.XNextEvent :: rest ∧
      (XCall.XGrabServer ∉ rest ∧ XCall.XUngrabServer ∉ rest) ∧
      List.count XCall.XGrabServer (callsSince s (Run s inp).1) = 1 ∧
      List.count XCall.XUngrabServer (callsSince s (Run s inp).1) = 1 ∧
      (ws = [] → framing = [] ∧ t.m_Clients = s.m_Clients ∧
        (s.m_Clients = [] → t.m_Clients = [])) := by
  have hg := grabbed_fields s inp.handshakeErrors
  generalize hgdef : (((handshake s inp.handshakeErrors).call (.XSetErrorHandler .OnXError)).call
      .XGrabServer).call (.XQueryTree s.m_RootWindow) = g at hg
  have hgflag : g.wm_detected = false := by
    rw [← hgdef]
    simpa [call] using hflag
  obtain ⟨framing, hf, hquiet, _⟩ := exec_calls (startupActions inp.startupReplies 0 ws) g
  obtain ⟨rest, hrest, hgr, hur⟩ := eventLoop_calls inp.events
    (((exec g (startupActions inp.startupReplies 0 ws)).call .XFree).call .XUngrabServer)
  have hrun : Run s inp =
      (eventLoop
        (((exec g (startupActions inp.startupReplies 0 ws)).call .XFree).call .XUngrabServer)
        inp.events, .awaitingEvent) := by
    rw [Run_of_not_detected s inp hflag, hq]
    simp only [bne_self_eq_false, Bool.false_eq_true, if_false]
    rw [hgdef, frameTopLevel_eq_exec]
  have hcalls : (Run s inp).1.calls = s.calls ++
      [.XSetErrorHandler .OnWMDetected,
       .XSelectInput s.m_RootWindow (SubstructureRedirectMask ||| SubstructureNotifyMask),
       .XSync false,
       .XSetErrorHandler .OnXError,
       .XGrabServer,
       .XQueryTree s.m_RootWindow] ++
      framing ++ [.XFree, .XUngrabServer] ++ XCall.XNextEvent :: rest := by
    rw [hrun]
    show (eventLoop _ inp.events).calls = _
    rw [hrest]
    simp [call, hf, hg.2.2]
  refine ⟨g, _, framing, rest, ⟨hg.1, hg.2.1, hgflag, hg.2.2⟩, ⟨hf, hquiet⟩, rfl, hrun,
    hcalls, ⟨hgr, hur⟩, ?_, ?_, ?_⟩
  · simp only [callsSince, hcalls, List.append_assoc, List.drop_left]
    simp [List.count_append, List.count_cons, List.count_eq_zero_of_not_mem hquiet.1,
      List.count_eq_zero_of_not_mem hgr]
  · simp only [callsSince, hcalls, List.append_assoc, List.drop_left]
    simp [List.count_append, List.count_cons, List.count_eq_zero_of_not_mem hquiet.2.1,
      List.count_eq_zero_of_not_mem hur]
  · intro hws
    subst hws
    have hnil : framing = [] := by
      have : g.calls = g.calls ++ framing := by simpa [startupActions, exec] using hf
      exact (List.self_eq_append_right.1 this)
    refine ⟨hnil, ?_, ?_⟩
    · simp [startupActions, exec, call, hg.2.1]
    · intro hs
      simp [startupActions, exec, call, hg.2.1, hs]

/-- C12, checked on a new manager with root 1 whose startup finds the windows
7 and 8 and then receives one Map-Request. -/
theorem Run_startup_pass_witness :
    (handshake (create 1) sampleStartup.handshakeErrors).wm_detected = false ∧
    sampleStartup.queryTree = some ((create 1).m_RootWindow, [7, 8]) ∧
    ∃ (g t : BasicWindowManager) (framing rest : List XCall),
      (g.m_RootWindow = 1 ∧ g.m_Clients = [] ∧ g.wm_detected = false ∧
        g.calls = [] ++
          [.XSetErrorHandler .OnWMDetected,
           .XSelectInput 1 (SubstructureRedirectMask ||| SubstructureNotifyMask),
           .XSync false,
           .XSetErrorHandler .OnXError,
           .XGrabServer,
           .XQueryTree 1]) ∧
      ((exec g (startupActions sampleStartup.startupReplies 0 [7, 8])).calls =
          g.calls ++ framing ∧
        handlerCalls framing) ∧
      t = ((exec g (startupActions sampleStartup.startupReplies 0 [7, 8])).call .XFree).call
        .XUngrabServer ∧
      Run (create 1) sampleStartup = (eventLoop t sampleStartup.events, .awaitingEvent) ∧
      (Run (create 1) sampleStartup).1.calls = [] ++
          [.XSetErrorHandler .OnWMDetected,
           .XSelectInput 1 (SubstructureRedirectMask ||| SubstructureNotifyMask),
           .XSync false,
           .XSetErrorHandler .OnXError,
           .XGrabServer,
           .XQueryTree 1] ++
          framing ++ [.XFree, .XUngrabServer] ++ XCall.XNextEvent :: rest ∧
      (XCall.XGrabServer ∉ rest ∧ XCall.XUngrabServer ∉ rest) ∧
      List.count XCall.XGrabServer (callsSince (create 1) (Run (create 1) sampleStartup).1) = 1 ∧
      List.count XCall.XUngrabServer
        (callsSince (create 1) (Run (create 1) sampleStartup).1) = 1 ∧
      (([7, 8] : List Window) = [] → framing = [] ∧ t.m_Clients = [] ∧
        ((create 1).m_Clients = [] → t.m_Clients = [])) :=
  ⟨by decide, rfl, Run_startup_pass (create 1) sampleStartup [7, 8] (by decide) rfl⟩

/-- Startup of a new manager with root 1 and no top-level window: the registry
is empty when the loop blocks in its first `XNextEvent`, after one grab and
one ungrab. -/
theorem Run_startup_no_windows :
    Run (create 1)
        { handshakeErrors := [], queryTree := some (1, []),
          startupReplies := fun _ => { attrs := none, frame := 0 }, events := [] } =
      ({ m_RootWindow := 1,
         m_Clients := [],
         wm_detected := false,
         calls :=
           [.XSetErrorHandler .OnWMDetected,
            .XSelectInput 1 1572864,
            .XSync false,
            .XSetErrorHandler .OnXError,
            .XGrabServer,
            .XQueryTree 1,
            .XFree,
            .XUngrabServer,
            .XNextEvent] },
       .awaitingEvent) := by
  decide

/-! ## Recorded frames are live -/

theorem liveFrames_append (l1 l2 : List XCall) (live : List Window) :
    liveFrames live (l1 ++ l2) = liveFrames (liveFrames live l1) l2 := by
  induction l1 generalizing live with
  | nil => rfl
  | cons c l1 ih => cases c <;> simp [liveFrames, ih]

theorem step_calls_since (s : BasicWindowManager) (a : Action) :
    (step s a).calls = s.calls ++ callsSince s (step s a) := by
  obtain ⟨l, hl, _, _⟩ := step_calls s a
  simp [callsSince, hl]

/-- The dispatcher returns the state unchanged or runs one of the three
handlers that have a body. -/
theorem dispatch_cases (s : BasicWindowManager) (e : XEvent) (reply : FrameReply) :
    dispatch s e reply = s ∨
    dispatch s e reply = OnConfigureRequest s e.xconfigurerequest ∨
    dispatch s e reply = OnMapRequest s e.xmaprequest reply ∨
    dispatch s e reply = OnUnmapNotify s e.xunmap := by
  unfold dispatch
  split_ifs
  · exact Or.inl rfl
  · exact Or.inr (Or.inl rfl)
  · exact Or.inl rfl
  · exact Or.inr (Or.inr (Or.inl rfl))
  · exact Or.inl rfl
  · exact Or.inr (Or.inr (Or.inr rfl))
  · exact Or.inl rfl
  · exact Or.inl rfl
  · exact Or.inl rfl

/-- What one action does to the registry and to the live windows: nothing; or
it erases a recorded client and destroys its frame; or it assigns to a client a
window it has just created. -/
theorem step_live_cases (s : BasicWindowManager) (a : Action) :
    ((step s a).m_Clients = s.m_Clients ∧
      ∀ L, liveFrames L (callsSince s (step s a)) = L) ∨
    (∃ w F, find s.m_Clients w = some F ∧
      (step s a).m_Clients = erase s.m_Clients w ∧
      ∀ L, liveFrames L (callsSince s (step s a)) = L.filter (fun f => f != F)) ∨
    (∃ w f, (step s a).m_Clients = assign s.m_Clients w f ∧
      ∀ L, liveFrames L (callsSince s (step s a)) = L ++ [f]) := by
  have hself : (s.m_Clients = s.m_Clients ∧ ∀ L, liveFrames L (callsSince s s) = L) := by
    refine ⟨rfl, fun L => ?_⟩
    simp [callsSince, liveFrames]
  cases a with
  | startupFrame w reply =>
    rcases Frame_cases s w true reply with h | ⟨a, ha, hpass⟩
    · left
      simp [step, h, call, callsSince, liveFrames]
    · right; right
      refine ⟨w, reply.frame, ?_⟩
      simp [step, Frame_of_attrs s w true reply a ha hpass, callsSince, liveFrames]
  | event e reply =>
    simp only [step]
    rcases dispatch_cases s e reply with hd | hd | hd | hd
    · rw [hd]
      exact Or.inl hself
    · rw [hd]
      left
      cases h : find s.m_Clients e.xconfigurerequest.window with
      | none => simp [OnConfigureRequest, count, h, call, callsSince, liveFrames]
      | some F => simp [OnConfigureRequest, count, h, call, index, callsSince, liveFrames]
    · rw [hd]
      cases ha : reply.attrs with
      | none =>
        left
        simp [OnMapRequest, Frame_of_no_attrs s _ false reply ha, call, callsSince, liveFrames]
      | some a =>
        right; right
        refine ⟨e.xmaprequest.window, reply.frame, ?_⟩
        simp [OnMapRequest_of_attrs s _ reply a ha, callsSince, liveFrames]
    · rw [hd]
      by_cases hc : find s.m_Clients e.xunmap.window = none
      · have : OnUnmapNotify s e.xunmap = s := by
          simp [OnUnmapNotify, (count_eq_zero_iff _ _).2 hc]
        rw [this]
        exact Or.inl hself
      · obtain ⟨F, hF⟩ := Option.ne_none_iff_exists'.1 hc
        by_cases hr : e.xunmap.event = s.m_RootWindow
        · have : OnUnmapNotify s e.xunmap = s := by
            simp [OnUnmapNotify, hr]
          rw [this]
          exact Or.inl hself
        · right; left
          refine ⟨e.xunmap.window, F, hF, ?_⟩
          rw [OnUnmapNotify_of_client s e.xunmap F hF hr, Unframe_eq, index_of_find _ _ _ hF]
          simp [callsSince, liveFrames]

theorem mem_frames_erase (m : ClientMap) (w F f : Window) (hn : (frames m).Nodup)
    (hw : find m w = some F) (hf : f ∈ frames (erase m w)) : f ∈ frames m ∧ f ≠ F := by
  obtain ⟨p, hp, hpf⟩ := List.mem_map.1 hf
  obtain ⟨k, v⟩ := p
  have hmem : (k, v) ∈ m ∧ k ≠ w := by
    simpa [erase, List.mem_filter] using hp
  have hv : v = f := hpf
  subst hv
  refine ⟨List.mem_map.2 ⟨(k, v), hmem.1, rfl⟩, ?_⟩
  intro hvF
  subst hvF
  exact hmem.2 (client_unique_of_nodup_frames m hn k w v hmem.1 (mem_of_find _ _ _ hw))

theorem step_preserves_live (s : BasicWindowManager) (a : Action)
    (hn : (frames s.m_Clients).Nodup)
    (h : ∀ f ∈ frames s.m_Clients, f ∈ liveFrames [] s.calls) :
    ∀ f ∈ frames (step s a).m_Clients, f ∈ liveFrames [] (step s a).calls := by
  intro f hf
  rw [step_calls_since s a, liveFrames_append]
  rcases step_live_cases s a with ⟨hc, hl⟩ | ⟨w, F, hw, hc, hl⟩ | ⟨w, f', hc, hl⟩
  · rw [hl]
    rw [hc] at hf
    exact h f hf
  · rw [hl]
    rw [hc] at hf
    obtain ⟨h1, h2⟩ := mem_frames_erase _ w F f hn hw hf
    simp [List.mem_filter, h f h1, h2]
  · rw [hl]
    rw [hc] at hf
    rcases mem_frames_assign _ _ _ _ hf with h1 | h1
    · simp [h1]
    · exact List.mem_append_left _ (h f h1)

theorem exec_preserves_live (as : List Action) (s : BasicWindowManager)
    (hfresh : FreshRun s as)
    (hn : (keys s.m_Clients).Nodup ∧ (frames s.m_Clients).Nodup)
    (h : ∀ f ∈ frames s.m_Clients, f ∈ liveFrames [] s.calls) :
    ∀ f ∈ frames (exec s as).m_Clients, f ∈ liveFrames [] (exec s as).calls := by
  induction as generalizing s with
  | nil => exact h
  | cons a as ih =>
    exact ih (step s a) hfresh.2 (step_preserves_nodup s a hfresh.1 hn)
      (step_preserves_live s a hn.2 h)

/-- One half of the lifetime bracket holds: from the empty registry, under the
freshness assumption, every frame recorded in the registry has been created
and not destroyed. -/
theorem registry_frames_live (root : Window) (as : List Action)
    (hfresh : FreshRun (create root) as) :
    ∀ f ∈ frames (exec (create root) as).m_Clients,
      f ∈ liveFrames [] (exec (create root) as).calls := by
  apply exec_preserves_live as (create root) hfresh
  · exact ⟨by simp [create, keys], by simp [create, frames]⟩
  · intro f hf
    simp [create, frames] at hf

/-! ## The handshake decides whether startup proceeds -/

end BasicWindowManager

end Bwm
